import Mathlib

/-!
Verification of the agent orchestrator core (src-tauri/src/agent/orchestrator.rs)
against its natural-language specification.

The Rust code is shallowly embedded: `serde_json::Value` becomes the `Json`
inductive below, `usize` character counts become `Nat`, and external
collaborators (tool handlers, the artifact store, the approval channel) become
explicit inputs describing their observable outcome.  Serialization mirrors
`serde_json::to_string` (compact form); only character counts of serialized
values feed the verified decisions, so the key order of objects (a sorted
`BTreeMap` in serde) is immaterial and the insertion order of the source text
is kept.
-/

/-- Shallow embedding of `serde_json::Value`.  Numbers are modelled as
integers: every number the orchestrator itself produces (sizes, counts,
lengths) is a non-negative integer, and tool-result numbers only ever flow
through `json_type_name` and serialized size. -/
inductive Json where
  | null : Json
  | bool (b : Bool) : Json
  | num (n : Int) : Json
  | str (s : String) : Json
  | arr (items : List Json) : Json
  | obj (fields : List (String × Json)) : Json

/-- Lowercase hex digit, as `serde_json` prints in `\u00XX` escapes. -/
def hexDigitChar (n : Nat) : Char :=
  if n < 10 then Char.ofNat (48 + n) else Char.ofNat (87 + n)

/-- One character of a JSON string, escaped as `serde_json` escapes it. -/
def escapeJsonChar (c : Char) : String :=
  if c = '"' then "\\\""
  else if c = '\\' then "\\\\"
  else if c = Char.ofNat 8 then "\\b"
  else if c = Char.ofNat 9 then "\\t"
  else if c = Char.ofNat 10 then "\\n"
  else if c = Char.ofNat 12 then "\\f"
  else if c = Char.ofNat 13 then "\\r"
  else if c.toNat < 32 then
    "\\u00" ++ String.mk [hexDigitChar (c.toNat / 16), hexDigitChar (c.toNat % 16)]
  else String.singleton c

/-- JSON string-body escaping (`serde_json` escape rules, character by
character). -/
def escapeJsonString (s : String) : String :=
  s.data.foldl (fun acc c => acc ++ escapeJsonChar c) ""

/-- Decimal digit character. -/
def decDigitChar (d : Nat) : Char := Char.ofNat (48 + d)

/-- Decimal digits, least significant first; the fuel argument (any bound on
the number) makes the recursion structural, so that concrete values reduce
inside the kernel.  Agrees with `Nat.digits 10`. -/
def natDecimalDigits : Nat → Nat → List Nat
  | 0, _ => []
  | fuel + 1, n =>
      if n = 0 then [] else n % 10 :: natDecimalDigits fuel (n / 10)

/-- Decimal rendering of a natural number, most significant digit first. -/
def natDecimalString (n : Nat) : String :=
  if n = 0 then "0" else String.mk (((natDecimalDigits n n).map decDigitChar).reverse)

/-- Decimal rendering of an integer. -/
def intDecimalString (i : Int) : String :=
  if i < 0 then "-" ++ natDecimalString i.natAbs else natDecimalString i.natAbs

mutual

/-- Compact serialization, mirroring `serde_json::to_string`. -/
def Json.render : Json → String
  | .null => "null"
  | .bool b => if b then "true" else "false"
  | .num n => intDecimalString n
  | .str s => "\"" ++ escapeJsonString s ++ "\""
  | .arr items => "[" ++ Json.renderArrayItems items ++ "]"
  | .obj fields => "\x7b" ++ Json.renderObjectFields fields ++ "\x7d"

/-- Comma-separated rendering of array items. -/
def Json.renderArrayItems : List Json → String
  | [] => ""
  | [v] => v.render
  | v :: rest => v.render ++ "," ++ Json.renderArrayItems rest

/-- Comma-separated rendering of object fields. -/
def Json.renderObjectFields : List (String × Json) → String
  | [] => ""
  | [(k, v)] => "\"" ++ escapeJsonString k ++ "\":" ++ v.render
  | (k, v) :: rest =>
      "\"" ++ escapeJsonString k ++ "\":" ++ v.render ++ "," ++ Json.renderObjectFields rest

end

/-- `serde_json::Map::get` (unique keys in real maps; first match here). -/
def objLookup : List (String × Json) → String → Option Json
  | [], _ => none
  | (k, v) :: rest, key => if k = key then some v else objLookup rest key

/-- `serde_json::Map::remove` on the association-list model (removes the first
occurrence; serde maps have unique keys). -/
def objRemove : List (String × Json) → String → List (String × Json)
  | [], _ => []
  | (k, v) :: rest, key => if k = key then rest else (k, v) :: objRemove rest key

/-- `serde_json::Map::insert`: replace the value at an existing key, else
append the new entry. -/
def objInsert : List (String × Json) → String → Json → List (String × Json)
  | [], key, value => [(key, value)]
  | (k, v) :: rest, key, value =>
      if k = key then (key, value) :: rest else (k, v) :: objInsert rest key value

/-- `Value::get` on objects (`None` for non-objects). -/
def Json.get : Json → String → Option Json
  | .obj fields, key => objLookup fields key
  | _, _ => none

/-! Constants of orchestrator.rs (lines 33-52). -/

def AUTO_INLINE_RESULT_MAX_CHARS : Nat := 4096
def INLINE_RESULT_HARD_MAX_CHARS : Nat := 16384
def PERSISTED_RESULT_PREVIEW_MAX_CHARS : Nat := 1200
def PARALLEL_BATCH_FALLBACK_TIMEOUT_MS : Nat := 120000
def OUTPUT_METADATA_MAX_TOP_LEVEL_KEYS : Nat := 20
def OUTPUT_METADATA_MAX_ID_HINTS : Nat := 12
def OUTPUT_METADATA_MAX_ID_SAMPLE_CHARS : Nat := 80
def OUTPUT_METADATA_MAX_ITEM_TYPE_HINTS : Nat := 8
def OUTPUT_METADATA_SCAN_MAX_DEPTH : Nat := 4
def OUTPUT_METADATA_SCAN_MAX_ARRAY_ITEMS : Nat := 24
def OUTPUT_METADATA_MAX_SERIALIZED_CHARS : Nat := 1600

/-- `str::starts_with` (character-prefix test; Rust compares bytes, which
agrees with comparing Unicode scalar values character by character). -/
def starts_with (s p : String) : Bool := p.data.isPrefixOf s.data

/-- `value_char_len`: character count of the serialized value (serialization
of a `Value` cannot fail in the model, so the `usize::MAX` fallback of the
source is unreachable). -/
def value_char_len (value : Json) : Nat := value.render.length

/-- `serialized_char_len` (same computation as `value_char_len`). -/
def serialized_char_len (value : Json) : Nat := value.render.length

/-- `OutputModeHint` (requested delivery mode). -/
inductive OutputModeHint where
  | auto : OutputModeHint
  | inline : OutputModeHint
  | persist : OutputModeHint
deriving DecidableEq, Repr

/-- `OutputModeHint::as_str`. -/
def OutputModeHint.as_str : OutputModeHint → String
  | .auto => "auto"
  | .inline => "inline"
  | .persist => "persist"

/-- `ToolResultMode` (a tool's declared result policy).  The enum itself lives
in `crate::tools` outside the provided sources; its three variants
`Inline | Persist | Auto` are fixed by the spec (section 6) and by every match
in orchestrator.rs. -/
inductive ToolResultMode where
  | inline : ToolResultMode
  | persist : ToolResultMode
  | auto : ToolResultMode
deriving DecidableEq, Repr

/-- `ResolvedOutputMode`. -/
inductive ResolvedOutputMode where
  | inline : ResolvedOutputMode
  | persist : ResolvedOutputMode
deriving DecidableEq, Repr

/-- `ResolvedOutputMode::as_str`. -/
def ResolvedOutputMode.as_str : ResolvedOutputMode → String
  | .inline => "inline"
  | .persist => "persist"

/-- `OutputDeliveryResolution`. -/
structure OutputDeliveryResolution where
  requested_output_mode : OutputModeHint
  resolved_output_mode : ResolvedOutputMode
  forced_persist : Bool
  forced_reason : Option String
deriving DecidableEq, Repr

/-- `should_persist_tool_output` (orchestrator.rs lines 2840-2854). -/
def should_persist_tool_output (tool_name : String) (result_mode : ToolResultMode)
    (output_chars : Nat) : Bool :=
  if starts_with tool_name "tool_outputs." then
    false
  else
    match result_mode with
    | .inline => decide (output_chars > INLINE_RESULT_HARD_MAX_CHARS)
    | .persist => true
    | .auto => decide (output_chars > AUTO_INLINE_RESULT_MAX_CHARS)

/-- `resolve_output_delivery` (orchestrator.rs lines 2437-2499). -/
def resolve_output_delivery (tool_name : String) (requested_output_mode : OutputModeHint)
    (result_mode : ToolResultMode) (output_chars : Nat) : OutputDeliveryResolution :=
  if starts_with tool_name "tool_outputs." then
    { requested_output_mode
      resolved_output_mode := .inline
      forced_persist := false
      forced_reason := none }
  else
    match requested_output_mode with
    | .persist =>
      { requested_output_mode
        resolved_output_mode := .persist
        forced_persist := false
        forced_reason := none }
    | .inline =>
      if output_chars > INLINE_RESULT_HARD_MAX_CHARS then
        { requested_output_mode
          resolved_output_mode := .persist
          forced_persist := true
          forced_reason := some "inline_size_exceeds_hard_limit" }
      else
        { requested_output_mode
          resolved_output_mode := .inline
          forced_persist := false
          forced_reason := none }
    | .auto =>
      let should_persist := should_persist_tool_output tool_name result_mode output_chars
      let forced_persist := result_mode = ToolResultMode.inline ∧ should_persist
      { requested_output_mode
        resolved_output_mode := if should_persist then .persist else .inline
        forced_persist := decide forced_persist
        forced_reason :=
          if forced_persist then some "inline_size_exceeds_hard_limit" else none }

/-- C3: a tool in the reserved output-access namespace always resolves to
Inline, unforced, whatever the requested mode, declared policy and size. -/
theorem tool_outputs_namespace_always_inline
    (tool_name : String) (requested : OutputModeHint) (result_mode : ToolResultMode)
    (output_chars : Nat) (h : starts_with tool_name "tool_outputs." = true) :
    resolve_output_delivery tool_name requested result_mode output_chars =
      { requested_output_mode := requested
        resolved_output_mode := .inline
        forced_persist := false
        forced_reason := none } := by
  simp [resolve_output_delivery, h]

/-- Witness for C3 at the concrete introspection tool `tool_outputs.read`. -/
theorem tool_outputs_namespace_always_inline_witness :
    (starts_with "tool_outputs.read" "tool_outputs." = true) ∧
      resolve_output_delivery "tool_outputs.read" .persist .persist 99999 =
        { requested_output_mode := .persist
          resolved_output_mode := .inline
          forced_persist := false
          forced_reason := none } :=
  ⟨by decide, tool_outputs_namespace_always_inline _ _ _ _ (by decide)⟩

/-- C2: resolution rules for tools outside the reserved namespace: an explicit
Persist request always persists; an explicit Inline request stays inline up to
the hard ceiling and is force-persisted with reason
"inline_size_exceeds_hard_limit" past it; Auto follows the declared policy
(Inline policy persists, forced, only past the hard ceiling; Persist policy
always persists; Auto policy persists past the default threshold); and the
hard ceiling exceeds the default auto threshold. -/
theorem resolve_output_delivery_spec
    (tool_name : String) (result_mode : ToolResultMode) (output_chars : Nat)
    (h : starts_with tool_name "tool_outputs." = false) :
    ((resolve_output_delivery tool_name .persist result_mode output_chars).resolved_output_mode
        = .persist) ∧
    (output_chars ≤ INLINE_RESULT_HARD_MAX_CHARS →
      resolve_output_delivery tool_name .inline result_mode output_chars =
        { requested_output_mode := .inline
          resolved_output_mode := .inline
          forced_persist := false
          forced_reason := none }) ∧
    (output_chars > INLINE_RESULT_HARD_MAX_CHARS →
      resolve_output_delivery tool_name .inline result_mode output_chars =
        { requested_output_mode := .inline
          resolved_output_mode := .persist
          forced_persist := true
          forced_reason := some "inline_size_exceeds_hard_limit" }) ∧
    ((resolve_output_delivery tool_name .auto .inline output_chars).resolved_output_mode
        = .persist ↔ output_chars > INLINE_RESULT_HARD_MAX_CHARS) ∧
    ((resolve_output_delivery tool_name .auto .inline output_chars).forced_persist = true ↔
        output_chars > INLINE_RESULT_HARD_MAX_CHARS) ∧
    ((resolve_output_delivery tool_name .auto .persist output_chars).resolved_output_mode
        = .persist) ∧
    ((resolve_output_delivery tool_name .auto .auto output_chars).resolved_output_mode
        = .persist ↔ output_chars > AUTO_INLINE_RESULT_MAX_CHARS) ∧
    AUTO_INLINE_RESULT_MAX_CHARS < INLINE_RESULT_HARD_MAX_CHARS := by
  refine ⟨?_, ?_, ?_, ?_, ?_, ?_, ?_, ?_⟩
  · simp [resolve_output_delivery, h]
  · intro hle
    simp [resolve_output_delivery, h, Nat.not_lt.mpr hle]
  · intro hgt
    simp [resolve_output_delivery, h, hgt]
  · by_cases hgt : output_chars > INLINE_RESULT_HARD_MAX_CHARS <;>
      simp [resolve_output_delivery, should_persist_tool_output, h, hgt]
  · by_cases hgt : output_chars > INLINE_RESULT_HARD_MAX_CHARS <;>
      simp [resolve_output_delivery, should_persist_tool_output, h, hgt]
  · simp [resolve_output_delivery, should_persist_tool_output, h]
  · by_cases hgt : output_chars > AUTO_INLINE_RESULT_MAX_CHARS <;>
      simp [resolve_output_delivery, should_persist_tool_output, h, hgt]
  · decide

/-- Witness for C2 at the concrete tool name "web.search" and size 5000. -/
theorem resolve_output_delivery_spec_witness :
    (starts_with "web.search" "tool_outputs." = false) ∧
    ((resolve_output_delivery "web.search" .auto .auto 5000).resolved_output_mode =
        .persist ↔ 5000 > AUTO_INLINE_RESULT_MAX_CHARS) := by
  refine ⟨by decide, ?_⟩
  exact (resolve_output_delivery_spec "web.search" .auto 5000 (by decide)).2.2.2.2.2.2.1

/-- `LlmMessage` (crate::llm): role plus JSON content. -/
structure LlmMessage where
  role : String
  content : Json

/-- `value_to_string` (orchestrator.rs lines 3172-3188): strings verbatim,
arrays concatenate their entries' "text" string fields, anything else
serializes. -/
def value_to_string (value : Json) : String :=
  match value with
  | .str text => text
  | .arr entries =>
      entries.foldl
        (fun combined entry =>
          match entry.get "text" with
          | some (.str text) => combined ++ text
          | _ => combined) ""
  | other => other.render

/-- `compact_history_messages_with_limits` (orchestrator.rs lines 2891-2917). -/
def compact_history_messages_with_limits (messages : List LlmMessage)
    (max_chars stable_prefix_messages recent_tail_messages : Nat) : List LlmMessage :=
  let message_sizes := messages.map fun msg => (value_to_string msg.content).length
  let total_chars := message_sizes.sum
  if total_chars ≤ max_chars then
    messages
  else
    let prefix_end := min messages.length stable_prefix_messages
    let tail_start := messages.length - recent_tail_messages
    if tail_start ≤ prefix_end then
      messages
    else
      messages.take prefix_end ++ messages.drop tail_start

/-- Total character footprint of a history, as the compactor measures it. -/
def history_total_chars (messages : List LlmMessage) : Nat :=
  (messages.map fun msg => (value_to_string msg.content).length).sum

/-- Within budget, the compactor is the identity. -/
theorem compact_within_budget (messages : List LlmMessage) (max_chars p t : Nat)
    (h : history_total_chars messages ≤ max_chars) :
    compact_history_messages_with_limits messages max_chars p t = messages := by
  unfold compact_history_messages_with_limits
  simp only []
  rw [if_pos (show (List.map (fun msg => (value_to_string msg.content).length) messages).sum ≤ max_chars from h)]

/-- Over budget with overlapping prefix/tail windows, the compactor falls back
to the identity. -/
theorem compact_overlap (messages : List LlmMessage) (max_chars p t : Nat)
    (h1 : max_chars < history_total_chars messages)
    (h2 : messages.length - t ≤ min messages.length p) :
    compact_history_messages_with_limits messages max_chars p t = messages := by
  unfold compact_history_messages_with_limits
  rw [if_neg (by exact Nat.not_le.mpr h1), if_pos h2]

/-- Over budget with disjoint windows, the compactor keeps exactly the first
`p` and the last `t` messages. -/
theorem compact_nonoverlap (messages : List LlmMessage) (max_chars p t : Nat)
    (h1 : max_chars < history_total_chars messages)
    (h2 : min messages.length p < messages.length - t) :
    compact_history_messages_with_limits messages max_chars p t =
      messages.take p ++ messages.drop (messages.length - t) := by
  have hp : p < messages.length := by omega
  have hmin : min messages.length p = p := by omega
  unfold compact_history_messages_with_limits
  rw [if_neg (by exact Nat.not_le.mpr h1), if_neg (by exact Nat.not_le.mpr h2), hmin]

/-- The head of a positive-length take is the head of the list. -/
theorem head?_take_of_pos (l : List LlmMessage) (p : Nat) (hp : 1 ≤ p) :
    (l.take p).head? = l.head? := by
  cases l with
  | nil => simp
  | cons m rest =>
    cases p with
    | zero => omega
    | succ q => simp

/-- C7 (amended): the compactor returns the history unchanged when within
budget or when the prefix/tail windows overlap; otherwise it keeps exactly the
first prefix-count and last tail-count messages (so the output has the first
and last original messages whenever both window sizes are at least 1); and it
is idempotent. -/
theorem compact_history_spec (messages : List LlmMessage) (max_chars p t : Nat) :
    (history_total_chars messages ≤ max_chars →
      compact_history_messages_with_limits messages max_chars p t = messages) ∧
    (max_chars < history_total_chars messages →
      messages.length - t ≤ min messages.length p →
      compact_history_messages_with_limits messages max_chars p t = messages) ∧
    (max_chars < history_total_chars messages →
      min messages.length p < messages.length - t →
      compact_history_messages_with_limits messages max_chars p t =
        messages.take p ++ messages.drop (messages.length - t) ∧
      (compact_history_messages_with_limits messages max_chars p t).length = p + t) ∧
    (compact_history_messages_with_limits
        (compact_history_messages_with_limits messages max_chars p t) max_chars p t =
      compact_history_messages_with_limits messages max_chars p t) ∧
    (1 ≤ p → 1 ≤ t →
      (compact_history_messages_with_limits messages max_chars p t).head? =
        messages.head? ∧
      (compact_history_messages_with_limits messages max_chars p t).getLast? =
        messages.getLast?) := by
  by_cases hbudget : history_total_chars messages ≤ max_chars
  · have hid := compact_within_budget messages max_chars p t hbudget
    refine ⟨fun _ => hid, fun hgt _ => hid, fun hgt _ => absurd hgt (by omega), ?_, ?_⟩
    · rw [hid, hid]
    · intro _ _; rw [hid]; exact ⟨rfl, rfl⟩
  · have hgt : max_chars < history_total_chars messages := by omega
    by_cases hov : messages.length - t ≤ min messages.length p
    · have hid := compact_overlap messages max_chars p t hgt hov
      refine ⟨fun hle => absurd hle hbudget, fun _ _ => hid,
        fun _ hno => absurd hno (by omega), ?_, ?_⟩
      · rw [hid, hid]
      · intro _ _; rw [hid]; exact ⟨rfl, rfl⟩
    · have hno : min messages.length p < messages.length - t := by omega
      have hout := compact_nonoverlap messages max_chars p t hgt hno
      have hp : p < messages.length := by omega
      have ht : t < messages.length := by omega
      have hlen : (compact_history_messages_with_limits messages max_chars p t).length
          = p + t := by
        rw [hout]
        rw [List.length_append, List.length_take, List.length_drop]
        omega
      refine ⟨fun hle => absurd hle hbudget, fun _ hov2 => absurd hov2 (by omega),
        fun _ _ => ⟨hout, hlen⟩, ?_, ?_⟩
      · by_cases hb2 : history_total_chars
            (compact_history_messages_with_limits messages max_chars p t) ≤ max_chars
        · exact compact_within_budget _ max_chars p t hb2
        · apply compact_overlap _ max_chars p t (by omega)
          rw [hlen]
          omega
      · intro hp1 ht1
        have hdrop_ne : messages.drop (messages.length - t) ≠ [] := by
          apply List.ne_nil_of_length_pos
          rw [List.length_drop]
          omega
        constructor
        · rw [hout, List.head?_append, head?_take_of_pos messages p hp1]
          cases hm : messages.head? with
          | none =>
            rw [List.head?_eq_none_iff] at hm
            subst hm
            simp at hp
          | some m => rfl
        · rw [hout, List.getLast?_append]
          obtain ⟨x, hx⟩ := Option.isSome_iff_exists.mp
            (List.getLast?_isSome.mpr hdrop_ne)
          conv_rhs => rw [← List.take_append_drop (messages.length - t) messages]
          rw [List.getLast?_append, hx]
          rfl

/-- Witness for C7: a concrete over-budget history with overlapping windows is
returned unchanged. -/
theorem compact_history_spec_witness :
    (0 < history_total_chars
        [LlmMessage.mk "user" (Json.str "aaaaa"),
         LlmMessage.mk "assistant" (Json.str "bbbbb")]) ∧
    compact_history_messages_with_limits
        [LlmMessage.mk "user" (Json.str "aaaaa"),
         LlmMessage.mk "assistant" (Json.str "bbbbb")] 0 1 1 =
      [LlmMessage.mk "user" (Json.str "aaaaa"),
       LlmMessage.mk "assistant" (Json.str "bbbbb")] :=
  ⟨by decide, (compact_history_spec _ 0 1 1).2.1 (by decide) (by decide)⟩

/-- Counterexample to C7 as stated: with a zero prefix count the compacted
output does not contain the first original message. -/
theorem compact_history_drops_first_message :
    compact_history_messages_with_limits
        [LlmMessage.mk "user" (Json.str "aaaaa"),
         LlmMessage.mk "assistant" (Json.str "bbbbb")] 0 0 1 =
      [LlmMessage.mk "assistant" (Json.str "bbbbb")] ∧
    LlmMessage.mk "user" (Json.str "aaaaa") ∉
      [LlmMessage.mk "assistant" (Json.str "bbbbb")] := by
  constructor
  · rfl
  · intro hmem
    have h := List.mem_singleton.mp hmem
    exact absurd (congrArg LlmMessage.role h) (by decide)

/-- `Option::is_some_and`. -/
def option_is_some_and {α : Type} (o : Option α) (p : α → Bool) : Bool :=
  match o with
  | some x => p x
  | none => false

/-- `Option::map_or`. -/
def option_map_or {α β : Type} (o : Option α) (default : β) (f : α → β) : β :=
  match o with
  | some x => f x
  | none => default

/-- `char::is_whitespace`: the Unicode White_Space property, as Rust tests
it (code points 9-13, 32, 133, 160, 5760, 8192-8202, 8232, 8233, 8239, 8287,
12288). -/
def rust_is_whitespace (c : Char) : Bool :=
  decide ((9 ≤ c.toNat ∧ c.toNat ≤ 13) ∨ c.toNat = 32 ∨ c.toNat = 133 ∨
    c.toNat = 160 ∨ c.toNat = 5760 ∨ (8192 ≤ c.toNat ∧ c.toNat ≤ 8202) ∨
    c.toNat = 8232 ∨ c.toNat = 8233 ∨ c.toNat = 8239 ∨ c.toNat = 8287 ∨
    c.toNat = 12288)

/-- `str::trim`: strip leading and trailing whitespace. -/
def rust_trim (s : String) : String :=
  String.mk (((s.data.dropWhile rust_is_whitespace).reverse.dropWhile
    rust_is_whitespace).reverse)

/-- `s.trim().is_empty()`, the blankness test the decoder applies to string
fields. -/
def is_blank (s : String) : Bool := (rust_trim s).data.isEmpty

/-- `str::to_ascii_lowercase`. -/
def to_ascii_lowercase (s : String) : String :=
  String.mk (s.data.map fun c =>
    if 65 ≤ c.toNat ∧ c.toNat ≤ 90 then Char.ofNat (c.toNat + 32) else c)

/-- `OutputModeHint::parse` (orchestrator.rs lines 70-77). -/
def OutputModeHint.parse (value : String) : Option OutputModeHint :=
  match to_ascii_lowercase (rust_trim value) with
  | "auto" => some .auto
  | "inline" => some .inline
  | "persist" => some .persist
  | _ => none

/-- `ResumeTarget` (crate::db; variants fixed by the decision schema:
"reflecting" and "controller"). -/
inductive ResumeTarget where
  | reflecting : ResumeTarget
  | controller : ResumeTarget
deriving DecidableEq, Repr

/-- `ControllerToolCallSpec` (orchestrator.rs lines 2089-2095). -/
structure ControllerToolCallSpec where
  tool : String
  args : Json
  output_mode : Option String

/-- `ControllerAction` (orchestrator.rs lines 2052-2087). -/
inductive ControllerAction where
  | nextStep (thinking : Json) (step_type : Option String) (description : Option String)
      (tool : Option String) (tools : Option (List ControllerToolCallSpec)) (args : Json)
      (output_mode : Option String) (message : Option String) (question : Option String)
      (context : Option String) (resume_to : Option ResumeTarget) : ControllerAction
  | complete (message : String) : ControllerAction
  | guardrailStop (reason : String) (message : Option String) : ControllerAction
  | askUser (question : String) (context : Option String) (resume_to : ResumeTarget) :
      ControllerAction

/-- `infer_step_type_flat` (orchestrator.rs lines 2180-2199). -/
def infer_step_type_flat (tool : Option String)
    (tools : Option (List ControllerToolCallSpec)) (message : Option String)
    (question : Option String) : Option String :=
  if option_is_some_and tools (fun entries => !entries.isEmpty) then some "tool_batch"
  else if option_is_some_and tool (fun t => !(is_blank t)) then some "tool"
  else if option_is_some_and question (fun q => !(is_blank q)) then some "ask_user"
  else if option_is_some_and message (fun m => !(is_blank m)) then some "respond"
  else none

/-- Per-entry validation of a `tool_batch`, mirroring the indexed loop in
`ControllerAction::validate` (orchestrator.rs lines 2137-2150). -/
def validate_batch_entries : List ControllerToolCallSpec → Nat → Except String Unit
  | [], _ => .ok ()
  | entry :: rest, idx =>
      if is_blank entry.tool then
        .error ("next_step type=tool_batch requires non-empty tool name at tools[" ++
          natDecimalString idx ++ "]")
      else
        match entry.output_mode with
        | some mode =>
            if (OutputModeHint.parse mode).isNone then
              .error ("Invalid output_mode '" ++ mode ++ "' at tools[" ++
                natDecimalString idx ++ "]: expected one of auto, inline, persist")
            else validate_batch_entries rest (idx + 1)
        | none => validate_batch_entries rest (idx + 1)

/-- `ControllerAction::validate` (orchestrator.rs lines 2097-2177). -/
def ControllerAction.validate : ControllerAction → Except String Unit
  | .nextStep _thinking step_type _description tool tools _args output_mode message
      question _context _resume_to =>
    let effective_type :=
      match step_type with
      | some s => some s
      | none => infer_step_type_flat tool tools message question
    match effective_type with
    | some "tool" =>
        if option_map_or tool true (fun t => is_blank t) then
          .error "next_step type=tool requires non-empty 'tool' field"
        else
          match output_mode with
          | some mode =>
              if (OutputModeHint.parse mode).isNone then
                .error ("Invalid output_mode '" ++ mode ++
                  "': expected one of auto, inline, persist")
              else .ok ()
          | none => .ok ()
    | some "tool_batch" =>
        match tools with
        | none => .error "next_step type=tool_batch requires non-empty 'tools' field"
        | some entries =>
            if entries.isEmpty then
              .error "next_step type=tool_batch requires non-empty 'tools' field"
            else validate_batch_entries entries 0
    | some "respond" =>
        if option_map_or message true (fun m => is_blank m) then
          .error "next_step type=respond requires non-empty 'message' field"
        else .ok ()
    | some "ask_user" =>
        if option_map_or question true (fun q => is_blank q) then
          .error "next_step type=ask_user requires non-empty 'question' field"
        else .ok ()
    | none =>
        .error "Cannot determine step type: provide 'type' or 'tool'/'message'/'question'"
    | some other => .error ("Unknown step type: " ++ other)
  | _ => .ok ()

/-- `non_empty_string_field` (orchestrator.rs lines 2317-2325). -/
def non_empty_string_field (root : Json) (keys : List String) : Option String :=
  keys.findSome? fun key =>
    match root.get key with
    | some (.str s) =>
        let trimmed := rust_trim s
        if trimmed.data.isEmpty then none else some trimmed
    | _ => none

/-- The `action` field of the normalized value, read as a string
(`normalized.get("action").and_then(as_str)`). -/
def normalized_action_str (normalized : Json) : Option String :=
  match normalized.get "action" with
  | some (.str s) => some s
  | _ => none

/-- `parse_controller_action` (orchestrator.rs lines 2210-2233), modelled over
the outcome of serde deserialization of the alias-normalized value: a
successfully decoded action is validated, a serde failure falls back to the
legacy bare `action:"respond"` shape and otherwise fails with no synthesis. -/
def parse_controller_action (serde_result : Except String ControllerAction)
    (normalized : Json) : Except String ControllerAction :=
  match serde_result with
  | .ok action =>
      match action.validate with
      | .ok _ => .ok action
      | .error e => .error e
  | .error serde_err =>
      if normalized_action_str normalized = some "respond" then
        match non_empty_string_field normalized ["message", "response"] with
        | some msg => .ok (.complete msg)
        | none => .error ("Invalid controller output: " ++ serde_err)
      else .error ("Invalid controller output: " ++ serde_err)

/-- C1: a decoded `next_step` without `type` and with none of
tools/tool/question/message populated is rejected: type inference yields
nothing, validation fails, and the decoder errors out instead of synthesizing
a step from the `thinking` content (which is fully arbitrary here). -/
theorem next_step_unpopulated_decoding_fails (thinking : Json)
    (description : Option String) (tool : Option String)
    (tools : Option (List ControllerToolCallSpec)) (args : Json)
    (output_mode message question context : Option String)
    (resume_to : Option ResumeTarget) (normalized : Json)
    (htools : ∀ entries, tools = some entries → entries = [])
    (htool : ∀ t, tool = some t → is_blank t = true)
    (hquestion : ∀ q, question = some q → is_blank q = true)
    (hmessage : ∀ m, message = some m → is_blank m = true) :
    infer_step_type_flat tool tools message question = none ∧
    parse_controller_action
        (.ok (ControllerAction.nextStep thinking none description tool tools args
          output_mode message question context resume_to)) normalized =
      .error "Cannot determine step type: provide 'type' or 'tool'/'message'/'question'" := by
  have hinfer : infer_step_type_flat tool tools message question = none := by
    unfold infer_step_type_flat
    have h1 : option_is_some_and tools (fun entries => !entries.isEmpty) = false := by
      cases tools with
      | none => rfl
      | some entries => simp [option_is_some_and, htools entries rfl]
    have h2 : option_is_some_and tool (fun t => !(is_blank t)) = false := by
      cases tool with
      | none => rfl
      | some t => simp [option_is_some_and, htool t rfl]
    have h3 : option_is_some_and question (fun q => !(is_blank q)) = false := by
      cases question with
      | none => rfl
      | some q => simp [option_is_some_and, hquestion q rfl]
    have h4 : option_is_some_and message (fun m => !(is_blank m)) = false := by
      cases message with
      | none => rfl
      | some m => simp [option_is_some_and, hmessage m rfl]
    rw [if_neg (by simp [h1]), if_neg (by simp [h2]), if_neg (by simp [h3]),
      if_neg (by simp [h4])]
  refine ⟨hinfer, ?_⟩
  have hval : (ControllerAction.nextStep thinking none description tool tools args
      output_mode message question context resume_to).validate =
      .error "Cannot determine step type: provide 'type' or 'tool'/'message'/'question'" := by
    simp only [ControllerAction.validate, hinfer]
  simp only [parse_controller_action, hval]

/-- Witness for C1: a concrete response carrying only thinking content (plus a
blank tool name) fails to decode. -/
theorem next_step_unpopulated_decoding_fails_witness :
    infer_step_type_flat (some "  ") none none none = none ∧
    parse_controller_action
        (.ok (ControllerAction.nextStep (Json.obj [("task", Json.str "look around")])
          none none (some "  ") none Json.null none none none none none)) Json.null =
      .error "Cannot determine step type: provide 'type' or 'tool'/'message'/'question'" :=
  next_step_unpopulated_decoding_fails (Json.obj [("task", Json.str "look around")])
    none (some "  ") none Json.null none none none none none Json.null
    (fun entries h => by cases h) (fun t h => by cases h; decide)
    (fun q h => by cases h) (fun m h => by cases h)

/-- `str::ends_with`. -/
def ends_with (s p : String) : Bool := p.data.isSuffixOf s.data

/-- `truncate_chars` (orchestrator.rs lines 2876-2889): first `max_chars`
characters plus a was-truncated flag. -/
def truncate_chars (input : String) (max_chars : Nat) : String × Bool :=
  if max_chars = 0 then ("", !input.data.isEmpty)
  else (String.mk (input.data.take max_chars), decide (max_chars < input.data.length))

/-- `truncate_with_notice` (orchestrator.rs lines 2867-2874). -/
def truncate_with_notice (input : String) (max_chars : Nat) : String :=
  let result := truncate_chars input max_chars
  if result.2 then result.1 ++ " ...(truncated)" else result.1

/-- `summarize_tool_output_value` (orchestrator.rs lines 2862-2865). -/
def summarize_tool_output_value (value : Json) (max_chars : Nat) : String × Bool :=
  truncate_chars value.render max_chars

/-- `json_type_name` (orchestrator.rs lines 3020-3029). -/
def json_type_name : Json → String
  | .obj _ => "object"
  | .arr _ => "array"
  | .str _ => "string"
  | .num _ => "number"
  | .bool _ => "boolean"
  | .null => "null"

/-- `array_item_type_hints` (orchestrator.rs lines 3031-3050): a histogram of
the types of the first 24 items.  The `BTreeMap` iterates its keys sorted, so
the six possible type names are enumerated in sorted order and the zero-count
ones skipped. -/
def array_item_type_hints (values : List Json) : Json :=
  let sample := values.take OUTPUT_METADATA_SCAN_MAX_ARRAY_ITEMS
  Json.arr ((["array", "boolean", "null", "number", "object", "string"].filterMap
    fun value_type =>
      let count := (sample.filter fun item => json_type_name item == value_type).length
      if count = 0 then none
      else some (Json.obj [("type", Json.str value_type),
        ("count", Json.num count)])).take OUTPUT_METADATA_MAX_ITEM_TYPE_HINTS)

/-- `is_id_like_key` (orchestrator.rs lines 3105-3108). -/
def is_id_like_key (key : String) : Bool :=
  let normalized := to_ascii_lowercase (rust_trim key)
  normalized == "id" || ends_with normalized "_id" || ends_with normalized "id"

/-- `summarize_id_sample` (orchestrator.rs lines 3110-3122). -/
def summarize_id_sample (value : Json) : Option String :=
  match value with
  | .str text => some (truncate_with_notice text OUTPUT_METADATA_MAX_ID_SAMPLE_CHARS)
  | .num number =>
      some (truncate_with_notice (intDecimalString number) OUTPUT_METADATA_MAX_ID_SAMPLE_CHARS)
  | .bool flag =>
      some (truncate_with_notice (if flag then "true" else "false")
        OUTPUT_METADATA_MAX_ID_SAMPLE_CHARS)
  | _ => none

/-- One id-hint object as `collect_id_like_hints` builds it (path, key,
value type, optional sample). -/
def id_hint_json (child_path key : String) (child : Json) : Json :=
  match summarize_id_sample child with
  | some sample =>
      Json.obj [("path", Json.str child_path), ("key", Json.str key),
        ("value_type", Json.str (json_type_name child)), ("sample", Json.str sample)]
  | none =>
      Json.obj [("path", Json.str child_path), ("key", Json.str key),
        ("value_type", Json.str (json_type_name child))]

mutual

/-- `collect_id_like_hints` (orchestrator.rs lines 3052-3103).  The recursion
is driven by a fuel argument: the source recursion is bounded by the depth
guard (`depth > OUTPUT_METADATA_SCAN_MAX_DEPTH` returns), so any fuel larger
than the depth ceiling makes the fuel-exhaustion branch unreachable. -/
def collect_id_like_hints (fuel : Nat) (value : Json) (path : String) (depth : Nat)
    (hints : List Json) : List Json :=
  match fuel with
  | 0 => hints
  | fuel + 1 =>
    if depth > OUTPUT_METADATA_SCAN_MAX_DEPTH ∨
        hints.length ≥ OUTPUT_METADATA_MAX_ID_HINTS then hints
    else
      match value with
      | .obj fields =>
          collect_hints_over_keys fuel
            ((fields.map Prod.fst).insertionSort (· ≤ ·)) fields path depth hints
      | .arr items =>
          collect_hints_over_items fuel
            (items.take OUTPUT_METADATA_SCAN_MAX_ARRAY_ITEMS) path 0 depth hints
      | _ => hints
termination_by (fuel, 0)

/-- The sorted-key loop of `collect_id_like_hints` over an object. -/
def collect_hints_over_keys (fuel : Nat) (keys : List String)
    (fields : List (String × Json)) (path : String) (depth : Nat)
    (hints : List Json) : List Json :=
  match keys with
  | [] => hints
  | key :: rest =>
      if hints.length ≥ OUTPUT_METADATA_MAX_ID_HINTS then hints
      else
        match objLookup fields key with
        | none => collect_hints_over_keys fuel rest fields path depth hints
        | some child =>
            let child_path := path ++ "." ++ key
            let hints :=
              if is_id_like_key key then hints ++ [id_hint_json child_path key child]
              else hints
            let hints := collect_id_like_hints fuel child child_path (depth + 1) hints
            collect_hints_over_keys fuel rest fields path depth hints
termination_by (fuel, keys.length + 1)

/-- The indexed item loop of `collect_id_like_hints` over (the first 24 items
of) an array. -/
def collect_hints_over_items (fuel : Nat) (items : List Json) (path : String)
    (index : Nat) (depth : Nat) (hints : List Json) : List Json :=
  match items with
  | [] => hints
  | child :: rest =>
      if hints.length ≥ OUTPUT_METADATA_MAX_ID_HINTS then hints
      else
        let child_path := path ++ "[" ++ natDecimalString index ++ "]"
        let hints := collect_id_like_hints fuel child child_path (depth + 1) hints
        collect_hints_over_items fuel rest path (index + 1) depth hints
termination_by (fuel, items.length + 1)

end

/-- The pre-bounding metadata object of `compute_output_metadata`
(orchestrator.rs lines 2952-3007, the big match). -/
def metadata_base (value : Json) : Json :=
  match value with
  | .obj fields =>
      let sorted_keys := (fields.map Prod.fst).insertionSort (· ≤ ·)
      let top_level_keys := sorted_keys.take OUTPUT_METADATA_MAX_TOP_LEVEL_KEYS
      let top_level_value_types :=
        (top_level_keys.take OUTPUT_METADATA_MAX_ITEM_TYPE_HINTS).filterMap
          fun key => (objLookup fields key).map fun entry =>
            Json.obj [("key", Json.str key), ("type", Json.str (json_type_name entry))]
      Json.obj [("root_type", Json.str "object"),
        ("size_chars", Json.num (value_char_len value)),
        ("key_count", Json.num fields.length),
        ("top_level_keys", Json.arr (top_level_keys.map Json.str)),
        ("top_level_value_types", Json.arr top_level_value_types)]
  | .arr items =>
      Json.obj [("root_type", Json.str "array"),
        ("size_chars", Json.num (value_char_len value)),
        ("array_length", Json.num items.length),
        ("item_type_hints", array_item_type_hints items)]
  | .str text =>
      Json.obj [("root_type", Json.str "string"),
        ("size_chars", Json.num (value_char_len value)),
        ("string_length", Json.num text.length)]
  | .num _ =>
      Json.obj [("root_type", Json.str "number"),
        ("size_chars", Json.num (value_char_len value))]
  | .bool _ =>
      Json.obj [("root_type", Json.str "boolean"),
        ("size_chars", Json.num (value_char_len value))]
  | .null =>
      Json.obj [("root_type", Json.str "null"),
        ("size_chars", Json.num (value_char_len value))]

/-- First trimming stage of `bound_output_metadata_size` (orchestrator.rs
lines 3130-3137): drop the id-hints and mark the truncation (a non-object is
left untouched, as `as_object_mut` yields nothing). -/
def metadata_drop_id_hints (metadata : Json) : Json :=
  match metadata with
  | .obj fields =>
      Json.obj (objInsert (objInsert (objRemove fields "id_hints")
        "metadata_truncated" (Json.bool true))
        "metadata_truncation_reason" (Json.str "removed_id_hints_for_size_limit"))
  | other => other

/-- Second trimming stage (orchestrator.rs lines 3144-3151): drop the
secondary type hints. -/
def metadata_drop_secondary_hints (metadata : Json) : Json :=
  match metadata with
  | .obj fields =>
      Json.obj (objInsert (objRemove (objRemove fields "item_type_hints")
        "top_level_value_types")
        "metadata_truncation_reason"
        (Json.str "removed_secondary_hints_for_size_limit"))
  | other => other

/-- Final collapse (orchestrator.rs lines 3158-3163): the minimal
root-type/size/truncated shape. -/
def metadata_minimal_fallback (metadata : Json) : Json :=
  Json.obj [("root_type", (metadata.get "root_type").getD (Json.str "unknown")),
    ("size_chars", (metadata.get "size_chars").getD (Json.num 0)),
    ("metadata_truncated", Json.bool true),
    ("metadata_truncation_reason", Json.str "hard_size_limit")]

/-- `bound_output_metadata_size` (orchestrator.rs lines 3124-3164): staged
trimming down to a minimal fallback shape. -/
def bound_output_metadata_size (metadata : Json) : Json :=
  if serialized_char_len metadata ≤ OUTPUT_METADATA_MAX_SERIALIZED_CHARS then metadata
  else
    let metadata1 := metadata_drop_id_hints metadata
    if serialized_char_len metadata1 ≤ OUTPUT_METADATA_MAX_SERIALIZED_CHARS then metadata1
    else
      let metadata2 := metadata_drop_secondary_hints metadata1
      if serialized_char_len metadata2 ≤ OUTPUT_METADATA_MAX_SERIALIZED_CHARS then metadata2
      else metadata_minimal_fallback metadata2

/-- `compute_output_metadata` (orchestrator.rs lines 2952-3018). -/
def compute_output_metadata (value : Json) : Json :=
  let metadata := metadata_base value
  let id_hints := collect_id_like_hints (OUTPUT_METADATA_SCAN_MAX_DEPTH + 2) value "$" 0 []
  let metadata :=
    if id_hints.isEmpty then metadata
    else
      match metadata with
      | .obj fields => Json.obj (objInsert fields "id_hints" (Json.arr id_hints))
      | other => other
  bound_output_metadata_size metadata

/-- Looking up a key other than the inserted one is unaffected by
`objInsert`. -/
theorem objLookup_objInsert_ne (fields : List (String × Json)) (k key : String)
    (val : Json) (h : key ≠ k) :
    objLookup (objInsert fields k val) key = objLookup fields key := by
  induction fields with
  | nil => simp [objInsert, objLookup, h, Ne.symm h]
  | cons kv rest ih =>
    obtain ⟨k1, v1⟩ := kv
    by_cases hk : k1 = k
    · subst hk
      simp [objInsert, objLookup, h, Ne.symm h]
    · simp [objInsert, objLookup, hk, ih]

/-- Looking up a key other than the removed one is unaffected by
`objRemove`. -/
theorem objLookup_objRemove_ne (fields : List (String × Json)) (k key : String)
    (h : key ≠ k) :
    objLookup (objRemove fields k) key = objLookup fields key := by
  induction fields with
  | nil => simp [objRemove]
  | cons kv rest ih =>
    obtain ⟨k1, v1⟩ := kv
    by_cases hk : k1 = k
    · subst hk
      simp [objRemove, objLookup, Ne.symm h]
    · simp [objRemove, objLookup, hk, ih]

/-- With enough fuel, the fuel-driven digits agree with `Nat.digits 10`. -/
theorem natDecimalDigits_eq_digits (fuel n : Nat) (h : n ≤ fuel) :
    natDecimalDigits fuel n = Nat.digits 10 n := by
  induction fuel generalizing n with
  | zero =>
    have : n = 0 := by omega
    subst this
    simp [natDecimalDigits]
  | succ fuel ih =>
    cases n with
    | zero => simp [natDecimalDigits]
    | succ m =>
      have hdiv : (m + 1) / 10 ≤ fuel := by
        have := Nat.div_lt_self (Nat.succ_pos m) (by norm_num : 1 < 10)
        omega
      unfold natDecimalDigits
      rw [if_neg (Nat.succ_ne_zero m), ih _ hdiv,
        ← Nat.digits_def' (by norm_num : 1 < 10) (Nat.succ_pos m)]

/-- A natural below `10 ^ k` prints in at most `k` decimal digits. -/
theorem natDecimalString_length_le (n k : Nat) (hk : 1 ≤ k) (h : n < 10 ^ k) :
    (natDecimalString n).length ≤ k := by
  unfold natDecimalString
  by_cases h0 : n = 0
  · rw [if_pos h0]
    simpa using hk
  · rw [if_neg h0]
    have hlen : (String.mk (((natDecimalDigits n n).map decDigitChar).reverse)).length =
        (Nat.digits 10 n).length := by
      show (((natDecimalDigits n n).map decDigitChar).reverse).length = _
      rw [natDecimalDigits_eq_digits n n le_rfl, List.length_reverse, List.length_map]
    rw [hlen, Nat.digits_len 10 n (by norm_num) h0]
    have := Nat.log_lt_of_lt_pow h0 h
    omega

/-- The trimming stages do not touch the root-type and size fields. -/
theorem metadata_drop_id_hints_get (m : Json) (key : String)
    (h1 : key ≠ "id_hints") (h2 : key ≠ "metadata_truncated")
    (h3 : key ≠ "metadata_truncation_reason") :
    (metadata_drop_id_hints m).get key = m.get key := by
  cases m with
  | obj fields =>
    simp only [metadata_drop_id_hints, Json.get]
    rw [objLookup_objInsert_ne _ _ _ _ h3, objLookup_objInsert_ne _ _ _ _ h2,
      objLookup_objRemove_ne _ _ _ h1]
  | null => rfl
  | bool b => rfl
  | num n => rfl
  | str s => rfl
  | arr items => rfl

/-- The second trimming stage also keeps the root-type and size fields. -/
theorem metadata_drop_secondary_hints_get (m : Json) (key : String)
    (h1 : key ≠ "item_type_hints") (h2 : key ≠ "top_level_value_types")
    (h3 : key ≠ "metadata_truncation_reason") :
    (metadata_drop_secondary_hints m).get key = m.get key := by
  cases m with
  | obj fields =>
    simp only [metadata_drop_secondary_hints, Json.get]
    rw [objLookup_objInsert_ne _ _ _ _ h3, objLookup_objRemove_ne _ _ _ h2,
      objLookup_objRemove_ne _ _ _ h1]
  | null => rfl
  | bool b => rfl
  | num n => rfl
  | str s => rfl
  | arr items => rfl

/-- Character count of the minimal fallback object in terms of its two
variable fields. -/
theorem metadata_minimal_fallback_length (m : Json) :
    serialized_char_len (metadata_minimal_fallback m) =
      101 + (Json.render ((m.get "root_type").getD (Json.str "unknown"))).length +
        (Json.render ((m.get "size_chars").getD (Json.num 0))).length := by
  simp only [metadata_minimal_fallback, serialized_char_len, Json.render,
    Json.renderObjectFields, String.length_append]
  have e1 : ("\"" : String).length = 1 := rfl
  have e2 : (escapeJsonString "root_type").length = 9 := by decide
  have e3 : ("\":" : String).length = 2 := rfl
  have e4 : ("," : String).length = 1 := rfl
  have e5 : (escapeJsonString "size_chars").length = 10 := by decide
  have e6 : (escapeJsonString "metadata_truncated").length = 18 := by decide
  have e7 : ("true" : String).length = 4 := rfl
  have e8 : (escapeJsonString "metadata_truncation_reason").length = 26 := by decide
  have e9 : (escapeJsonString "hard_size_limit").length = 15 := by decide
  have e10 : ("\x7b" : String).length = 1 := rfl
  have e11 : ("\x7d" : String).length = 1 := rfl
  simp only [e1, e2, e3, e4, e5, e6, e7, e8, e9, e10, e11, ite_true]
  omega

/-- Whatever it is fed, `bound_output_metadata_size` yields an object of at
most the metadata ceiling, provided the root-type and size fields (when
present) render small. -/
theorem bound_output_metadata_size_le (m : Json)
    (hroot : ∀ x, m.get "root_type" = some x → (Json.render x).length ≤ 10)
    (hsize : ∀ x, m.get "size_chars" = some x → (Json.render x).length ≤ 20) :
    serialized_char_len (bound_output_metadata_size m) ≤
      OUTPUT_METADATA_MAX_SERIALIZED_CHARS := by
  unfold bound_output_metadata_size
  by_cases h1 : serialized_char_len m ≤ OUTPUT_METADATA_MAX_SERIALIZED_CHARS
  · rwa [if_pos h1]
  · rw [if_neg h1]
    by_cases h2 : serialized_char_len (metadata_drop_id_hints m) ≤
        OUTPUT_METADATA_MAX_SERIALIZED_CHARS
    · rwa [if_pos h2]
    · rw [if_neg h2]
      by_cases h3 : serialized_char_len
          (metadata_drop_secondary_hints (metadata_drop_id_hints m)) ≤
          OUTPUT_METADATA_MAX_SERIALIZED_CHARS
      · rwa [if_pos h3]
      · rw [if_neg h3]
        have hr : (metadata_drop_secondary_hints (metadata_drop_id_hints m)).get
            "root_type" = m.get "root_type" := by
          rw [metadata_drop_secondary_hints_get _ _ (by decide) (by decide) (by decide),
            metadata_drop_id_hints_get _ _ (by decide) (by decide) (by decide)]
        have hs : (metadata_drop_secondary_hints (metadata_drop_id_hints m)).get
            "size_chars" = m.get "size_chars" := by
          rw [metadata_drop_secondary_hints_get _ _ (by decide) (by decide) (by decide),
            metadata_drop_id_hints_get _ _ (by decide) (by decide) (by decide)]
        rw [metadata_minimal_fallback_length, hr, hs]
        have hrb : (Json.render ((m.get "root_type").getD (Json.str "unknown"))).length
            ≤ 10 := by
          cases hx : m.get "root_type" with
          | none => decide
          | some x => simpa using hroot x hx
        have hsb : (Json.render ((m.get "size_chars").getD (Json.num 0))).length
            ≤ 20 := by
          cases hx : m.get "size_chars" with
          | none => decide
          | some x => simpa using hsize x hx
        unfold OUTPUT_METADATA_MAX_SERIALIZED_CHARS
        omega

/-- `metadata_base` stores the value type under `root_type`. -/
theorem metadata_base_get_root_type (value : Json) :
    (metadata_base value).get "root_type" = some (Json.str (json_type_name value)) := by
  cases value <;> rfl

/-- `metadata_base` stores the serialized size under `size_chars`. -/
theorem metadata_base_get_size_chars (value : Json) :
    (metadata_base value).get "size_chars" =
      some (Json.num (value_char_len value)) := by
  cases value <;> rfl

/-- The six root-type names all render within 10 characters. -/
theorem render_json_type_name_length (value : Json) :
    (Json.render (Json.str (json_type_name value))).length ≤ 10 := by
  cases value <;> simp only [json_type_name] <;> decide

/-- A size below `2 ^ 64` (the `usize` range of the source) renders within 20
characters. -/
theorem render_size_num_length (n : Nat) (h : n < 2 ^ 64) :
    (Json.render (Json.num n)).length ≤ 20 := by
  show (intDecimalString (Int.ofNat n)).length ≤ 20
  unfold intDecimalString
  rw [if_neg (show ¬Int.ofNat n < 0 from not_lt.mpr (Int.ofNat_nonneg n))]
  show (natDecimalString n).length ≤ 20
  exact natDecimalString_length_le n 20 (by norm_num) (lt_trans h (by norm_num))

/-- C9: the computed result metadata, after the staged trimming, serializes
within the fixed metadata ceiling of 1600 characters, for every result value
(whose serialized size fits the source's `usize`). -/
theorem compute_output_metadata_size_bounded (value : Json)
    (h : value_char_len value < 2 ^ 64) :
    serialized_char_len (compute_output_metadata value) ≤
      OUTPUT_METADATA_MAX_SERIALIZED_CHARS := by
  obtain ⟨fields, hfields⟩ : ∃ fields, metadata_base value = .obj fields := by
    cases value <;> exact ⟨_, rfl⟩
  unfold compute_output_metadata
  apply bound_output_metadata_size_le
  · intro x hx
    by_cases he :
        (collect_id_like_hints (OUTPUT_METADATA_SCAN_MAX_DEPTH + 2) value "$" 0
          []).isEmpty
    · rw [if_pos he, metadata_base_get_root_type value] at hx
      cases hx
      exact render_json_type_name_length value
    · rw [if_neg he, hfields] at hx
      simp only [Json.get] at hx
      rw [objLookup_objInsert_ne _ _ _ _ (by decide)] at hx
      have : (metadata_base value).get "root_type" = some x := by
        rw [hfields]; exact hx
      rw [metadata_base_get_root_type value] at this
      cases this
      exact render_json_type_name_length value
  · intro x hx
    by_cases he :
        (collect_id_like_hints (OUTPUT_METADATA_SCAN_MAX_DEPTH + 2) value "$" 0
          []).isEmpty
    · rw [if_pos he, metadata_base_get_size_chars value] at hx
      cases hx
      exact render_size_num_length _ h
    · rw [if_neg he, hfields] at hx
      simp only [Json.get] at hx
      rw [objLookup_objInsert_ne _ _ _ _ (by decide)] at hx
      have : (metadata_base value).get "size_chars" = some x := by
        rw [hfields]; exact hx
      rw [metadata_base_get_size_chars value] at this
      cases this
      exact render_size_num_length _ h

/-- Witness for C9 at a concrete small object. -/
theorem compute_output_metadata_size_bounded_witness :
    value_char_len (Json.obj [("user_id", Json.str "u-1")]) < 2 ^ 64 ∧
    serialized_char_len
        (compute_output_metadata (Json.obj [("user_id", Json.str "u-1")])) ≤
      OUTPUT_METADATA_MAX_SERIALIZED_CHARS :=
  ⟨by decide, compute_output_metadata_size_bounded _ (by decide)⟩

/-- Outcome of one `recv_timeout` poll on a worker channel. -/
inductive RecvOutcome where
  | received : RecvOutcome
  | timeout : RecvOutcome
  | disconnected : RecvOutcome
deriving DecidableEq, Repr

/-- One iteration of a polling wait loop: the cancellation flag as read at the
top of the iteration, the wall-clock elapsed milliseconds, and the channel
poll outcome. -/
structure TimeoutPoll where
  cancelled : Bool
  elapsed_ms : Nat
  recv : RecvOutcome

/-- The polling loop of `execute_tool_handler_with_timeout` (orchestrator.rs
lines 1976-1999), over an explicit trace of poll observations.  `none` stands
for a trace too short to resolve the wait (the source loop just keeps
polling). -/
def timeout_wait_loop (timeout_ms : Nat) (handler_result : Except String Json) :
    List TimeoutPoll → Option (Except String Json)
  | [] => none
  | poll :: rest =>
      if poll.cancelled then some (.error "Tool execution cancelled")
      else if timeout_ms ≤ poll.elapsed_ms then
        some (.error ("Tool execution timed out after " ++
          natDecimalString timeout_ms ++ " ms"))
      else
        match poll.recv with
        | .received => some handler_result
        | .timeout => timeout_wait_loop timeout_ms handler_result rest
        | .disconnected => some (.error "Tool execution worker disconnected")

/-- `execute_tool_handler_with_timeout` (orchestrator.rs lines 1959-2000):
with a zero configured timeout the handler is called directly on the calling
thread; otherwise the call is dispatched to a worker and awaited through the
cancellation-aware polling loop. -/
def execute_tool_handler_with_timeout (timeout_ms : Nat)
    (handler_result : Except String Json) (polls : List TimeoutPoll) :
    Option (Except String Json) :=
  if timeout_ms = 0 then some handler_result
  else timeout_wait_loop timeout_ms handler_result polls

/-- The parallel batch dispatcher's effective timeout (orchestrator.rs lines
1262-1266): a zero configured timeout is replaced by the fixed fallback. -/
def batch_effective_timeout_ms (tool_execution_timeout_ms : Nat) : Nat :=
  if tool_execution_timeout_ms = 0 then PARALLEL_BATCH_FALLBACK_TIMEOUT_MS
  else tool_execution_timeout_ms

/-- C10: with `tool_execution_timeout_ms = 0` a single-tool invocation is the
direct handler call — the result is the handler's own, independent of any
cancellation/timeout observations, so no wrapper-made timeout or cancellation
error can arise — while a parallel batch substitutes the fixed 120000 ms
fallback timeout. -/
theorem zero_timeout_behaviour (handler_result : Except String Json)
    (polls other_polls : List TimeoutPoll) :
    execute_tool_handler_with_timeout 0 handler_result polls = some handler_result ∧
    execute_tool_handler_with_timeout 0 handler_result polls =
      execute_tool_handler_with_timeout 0 handler_result other_polls ∧
    batch_effective_timeout_ms 0 = PARALLEL_BATCH_FALLBACK_TIMEOUT_MS ∧
    PARALLEL_BATCH_FALLBACK_TIMEOUT_MS = 120000 := by
  refine ⟨rfl, rfl, rfl, rfl⟩

/-- `ToolApprovalDecision` (crate::tools; the two variants matched at
orchestrator.rs lines 726-817). -/
inductive ToolApprovalDecision where
  | approved : ToolApprovalDecision
  | denied : ToolApprovalDecision
deriving DecidableEq, Repr

/-- Outcome of one `recv_timeout` poll on the approval channel. -/
inductive ApprovalRecv where
  | received (decision : ToolApprovalDecision) : ApprovalRecv
  | timeout : ApprovalRecv
  | disconnected : ApprovalRecv
deriving DecidableEq, Repr

/-- One iteration of the approval wait loop: cancellation flag, elapsed
milliseconds since the wait started, channel poll outcome. -/
structure ApprovalPoll where
  cancelled : Bool
  elapsed_ms : Nat
  recv : ApprovalRecv

/-- The approval polling loop of `DynamicController::execute_tool`
(orchestrator.rs lines 701-723), over an explicit trace of poll observations:
cancellation forces a denial with reason "Tool execution cancelled", a timeout
past the configured window forces a denial with reason "Tool approval timed
out", a received decision is taken as-is (no forced reason), and a closed
channel is the fatal error "Approval channel closed".  `none` stands for a
trace too short to resolve the wait. -/
def approval_wait_loop (approval_timeout_ms : Nat) :
    List ApprovalPoll → Option (Except String (ToolApprovalDecision × Option String))
  | [] => none
  | poll :: rest =>
      if poll.cancelled then
        some (.ok (.denied, some "Tool execution cancelled"))
      else
        match poll.recv with
        | .received decision => some (.ok (decision, none))
        | .timeout =>
            if approval_timeout_ms ≤ poll.elapsed_ms then
              some (.ok (.denied, some "Tool approval timed out"))
            else approval_wait_loop approval_timeout_ms rest
        | .disconnected => some (.error "Approval channel closed")

/-- Modelled from the spec: `OutputRef{id, storage}`, the Tool Output Store's
receipt for a persisted artifact (the store itself lives outside the provided
sources; section 6 of the spec fixes this shape). -/
structure OutputRef where
  id : String
  storage : String
deriving DecidableEq, Repr

/-- JSON form of an `OutputRef` as serde serializes the struct. -/
def OutputRef.toJson (r : OutputRef) : Json :=
  .obj [("id", .str r.id), ("storage", .str r.storage)]

/-- The `{"message": …, "success": false}` error payload used throughout the
engine. -/
def error_message_json (message : String) : Json :=
  .obj [("message", .str message), ("success", .bool false)]

/-- `ToolExecutionRecord` (crate::db), restricted to the deterministically
computed fields: execution ids are carried as inputs, while durations and
timestamps (wall-clock reads) are omitted. -/
structure ToolExecutionRecord where
  execution_id : String
  tool_name : String
  args : Json
  result : Option Json
  success : Bool
  error : Option String
  iteration : Nat
  requested_output_mode : Option String
  resolved_output_mode : Option String
  forced_persist : Option Bool
  forced_reason : Option String

/-- `StepResult` (crate::db), restricted likewise (step ids, durations and
completion times omitted). -/
structure StepResult where
  success : Bool
  output : Option Json
  error : Option String
  tool_executions : List ToolExecutionRecord

/-- The persisted-delivery success payload (orchestrator.rs lines 917-936 and
1901-1920). -/
def persisted_output_message (output_ref : OutputRef) (output_chars : Nat)
    (preview : String) (preview_truncated : Bool) (metadata : Json)
    (delivery : OutputDeliveryResolution) : Json :=
  .obj [("persisted", .bool true),
    ("output_ref", output_ref.toJson),
    ("size_chars", .num output_chars),
    ("preview", .str preview),
    ("preview_truncated", .bool preview_truncated),
    ("metadata", metadata),
    ("requested_output_mode", .str delivery.requested_output_mode.as_str),
    ("resolved_output_mode", .str delivery.resolved_output_mode.as_str),
    ("forced_persist", .bool delivery.forced_persist),
    ("forced_reason",
      match delivery.forced_reason with
      | some reason => .str reason
      | none => .null),
    ("available_tools", .arr [
      .str "tool_outputs.read — load full output into context",
      .str "tool_outputs.extract — extract fields via JSONPath",
      .str "tool_outputs.stats — get schema, field types, counts",
      .str "tool_outputs.count — count items matching criteria",
      .str "tool_outputs.sample — sample items from arrays",
      .str "tool_outputs.list — list all stored outputs"])]

/-- Outcome classification shared by `DynamicController::execute_tool`
(orchestrator.rs lines 860-957) and `execute_parallel_tool_call` (lines
1845-1941), with the store call's outcome supplied as an input.
`persist_attempted` records whether the artifact store was called, which the
source does for every successful result of a non-introspection tool. -/
structure ToolRunClassification where
  persist_attempted : Bool
  output_delivery : Option OutputDeliveryResolution
  success : Bool
  output : Option Json
  error : Option String
  artifact_persist_warning : Option String

/-- The result classification of a completed handler call: resolve delivery,
attempt artifact persistence for non-introspection tools, and fold the
store's outcome into the success/error shape of the record. -/
def classify_tool_result (tool_name : String) (requested_output_mode : OutputModeHint)
    (result_mode : ToolResultMode) (execution_result : Except String Json)
    (store_result : Except String OutputRef) : ToolRunClassification :=
  match execution_result with
  | .ok output_value =>
      let output_chars := value_char_len output_value
      let delivery :=
        resolve_output_delivery tool_name requested_output_mode result_mode output_chars
      let preview := summarize_tool_output_value output_value
        PERSISTED_RESULT_PREVIEW_MAX_CHARS
      let metadata := compute_output_metadata output_value
      let should_store_artifact := !starts_with tool_name "tool_outputs."
      let stored : Option OutputRef × Option String :=
        if should_store_artifact then
          match store_result with
          | .ok output_ref => (some output_ref, none)
          | .error err => (none, some ("Failed to persist tool output: " ++ err))
        else (none, none)
      match delivery.resolved_output_mode with
      | .inline =>
          { persist_attempted := should_store_artifact
            output_delivery := some delivery
            success := true
            output := some output_value
            error := none
            artifact_persist_warning := stored.2 }
      | .persist =>
          match stored.2 with
          | some error_message =>
              { persist_attempted := should_store_artifact
                output_delivery := some delivery
                success := false
                output := some (error_message_json error_message)
                error := some error_message
                artifact_persist_warning := none }
          | none =>
              match stored.1 with
              | some output_ref =>
                  { persist_attempted := should_store_artifact
                    output_delivery := some delivery
                    success := true
                    output := some (persisted_output_message output_ref output_chars
                      preview.1 preview.2 metadata delivery)
                    error := none
                    artifact_persist_warning := none }
              | none =>
                  { persist_attempted := should_store_artifact
                    output_delivery := some delivery
                    success := false
                    output := some (error_message_json
                      "Resolved persisted output but missing output_ref")
                    error := some "Resolved persisted output but missing output_ref"
                    artifact_persist_warning := none }
  | .error error_message =>
      { persist_attempted := false
        output_delivery := none
        success := false
        output := some (error_message_json error_message)
        error := some error_message
        artifact_persist_warning := none }

/-- `parse_output_mode_hint` (orchestrator.rs lines 2428-2435). -/
def parse_output_mode_hint : Option String → Except String OutputModeHint
  | none => .ok .auto
  | some raw =>
      match OutputModeHint.parse raw with
      | some mode => .ok mode
      | none =>
          .error ("Invalid output_mode '" ++ raw ++
            "': expected one of auto, inline, persist")

/-- The denial short-circuit of `DynamicController::execute_tool`
(orchestrator.rs lines 752-816): no handler call, a failed record and step
result carrying the denial reason (the forced reason, or the plain human
denial). -/
def denied_step_result (execution_id tool_name : String) (args : Json)
    (iteration : Nat) (requested_output_mode : OutputModeHint)
    (forced_denial_reason : Option String) : StepResult :=
  let denied_error := forced_denial_reason.getD "Tool execution denied by approval"
  { success := false
    output := none
    error := some denied_error
    tool_executions := [{
      execution_id
      tool_name
      args
      result := none
      success := false
      error := some denied_error
      iteration
      requested_output_mode := some requested_output_mode.as_str
      resolved_output_mode := none
      forced_persist := none
      forced_reason := none }] }

/-- `build_preflight_failed_step_result` (orchestrator.rs lines 1479-1569). -/
def preflight_failed_step_result (execution_id tool_name : String) (args : Json)
    (iteration : Nat) (error_message : String) : StepResult :=
  let output := error_message_json error_message
  { success := false
    output := some output
    error := some error_message
    tool_executions := [{
      execution_id
      tool_name
      args
      result := some output
      success := false
      error := some error_message
      iteration
      requested_output_mode := none
      resolved_output_mode := none
      forced_persist := none
      forced_reason := none }] }

/-- The early-termination check of `execute_flat_step` (orchestrator.rs lines
540-550): a step error equal to one of the three denial reasons completes the
run with the fixed apology message. -/
def flat_step_termination (result_error : Option String) : Option String :=
  match result_error with
  | some error =>
      if error = "Tool execution denied by approval" ∨
          error = "Tool approval timed out" ∨
          error = "Tool execution cancelled" then
        some "Okay, stopping since the tool request wasn't approved. Let me know how you'd like to continue."
      else none
  | none => none

/-- The registry's view of one tool, as `execute_tool` consumes it: the
approval default and the declared result policy (handlers and previews are
abstracted by their observable outcomes in `ToolCallEnv`). -/
structure ToolDefM where
  requires_approval : Bool
  result_mode : ToolResultMode

/-- The external world of one `execute_tool` invocation: the registry lookup,
the argument validation verdict, the approval requirement as resolved through
the conversation/global overrides, the approval wait observations, the
cancellation flag re-read after approval, the handler's outcome with the
timeout-wait observations, and the artifact store's outcome.  Arguments are
taken post-`normalize_tool_args`/hydration (those passes only reshape the
argument value, re-parsing embedded JSON text, and no verified claim depends
on argument contents). -/
structure ToolCallEnv where
  execution_id : String
  args : Json
  registry_tool : Option ToolDefM
  args_error : Option String
  requires_approval_resolved : Bool
  approval_polls : List ApprovalPoll
  cancelled_after_approval : Bool
  handler_result : Except String Json
  timeout_polls : List TimeoutPoll
  store_result : Except String OutputRef

/-- `DynamicController::execute_tool` (orchestrator.rs lines 600-1065):
quota check, registry and argument preflight (non-fatal failures), the
approval gate with its denial short-circuit, the post-approval cancellation
check, the timeout-wrapped handler call, and the shared outcome
classification.  Returns the step result paired with the updated
per-step tool-call counter (incremented only when the handler is actually
invoked).  The `none`-resolved wait traces surface as errors marked
"unresolved wait": the source loops forever instead, so every terminating
source execution corresponds to a resolving trace. -/
def execute_tool_model (env : ToolCallEnv) (tool_name : String)
    (requested_output_mode : OutputModeHint) (timeout_ms approval_timeout_ms : Nat)
    (tool_calls_in_current_step max_tool_calls_per_step : Nat) :
    Except String (StepResult × Nat) :=
  if tool_calls_in_current_step ≥ max_tool_calls_per_step then
    .error "Exceeded tool call limit"
  else
    let iteration := tool_calls_in_current_step + 1
    match env.registry_tool with
    | none =>
        .ok (preflight_failed_step_result env.execution_id tool_name env.args iteration
          ("Unknown tool: " ++ tool_name), tool_calls_in_current_step)
    | some tool =>
        match env.args_error with
        | some err =>
            .ok (preflight_failed_step_result env.execution_id tool_name env.args
              iteration err, tool_calls_in_current_step)
        | none =>
            let proceed : Except String (StepResult × Nat) :=
              if env.cancelled_after_approval then .error "Cancelled"
              else
                let new_count := tool_calls_in_current_step + 1
                match execute_tool_handler_with_timeout timeout_ms env.handler_result
                    env.timeout_polls with
                | none => .error "unresolved wait (the source keeps polling)"
                | some execution_result =>
                    let cls := classify_tool_result tool_name requested_output_mode
                      tool.result_mode execution_result env.store_result
                    .ok ({ success := cls.success
                           output := cls.output
                           error := cls.error
                           tool_executions := [{
                             execution_id := env.execution_id
                             tool_name
                             args := env.args
                             result := cls.output
                             success := cls.success
                             error := cls.error
                             iteration := new_count
                             requested_output_mode := some requested_output_mode.as_str
                             resolved_output_mode := cls.output_delivery.map
                               fun d => d.resolved_output_mode.as_str
                             forced_persist := cls.output_delivery.map
                               fun d => d.forced_persist
                             forced_reason := cls.output_delivery.bind
                               fun d => d.forced_reason }] }, new_count)
            if env.requires_approval_resolved then
              match approval_wait_loop approval_timeout_ms env.approval_polls with
              | none => .error "unresolved wait (the source keeps polling)"
              | some (.error e) => .error e
              | some (.ok (.approved, _)) => proceed
              | some (.ok (.denied, forced_reason)) =>
                  .ok (denied_step_result env.execution_id tool_name env.args iteration
                    requested_output_mode forced_reason, tool_calls_in_current_step)
            else proceed

mutual

/-- `extract_tool_output_ref_id_from_value` (orchestrator.rs lines 2639-2662).
Objects are checked for a direct `output_ref.id` string first, then their
values scanned in map-iteration order; arrays are scanned in order.  The
source additionally re-parses a string value as JSON and scans the parse;
JSON text parsing is outside this embedding (no verified claim reads refs out
of embedded text), so the string branch yields nothing here. -/
def extract_tool_output_ref_id_from_value : Json → Option String
  | .obj fields =>
      let direct :=
        match objLookup fields "output_ref" with
        | some ref_value =>
            match ref_value.get "id" with
            | some (.str s) =>
                let trimmed := rust_trim s
                if trimmed.data.isEmpty then none else some trimmed
            | _ => none
        | none => none
      match direct with
      | some output_ref_id => some output_ref_id
      | none => extract_ref_from_values fields
  | .arr values => extract_ref_from_items values
  | _ => none

/-- `map.values().find_map(…)` of the object branch. -/
def extract_ref_from_values : List (String × Json) → Option String
  | [] => none
  | (_, v) :: rest =>
      match extract_tool_output_ref_id_from_value v with
      | some found => some found
      | none => extract_ref_from_values rest

/-- `values.iter().find_map(…)` of the array branch. -/
def extract_ref_from_items : List Json → Option String
  | [] => none
  | v :: rest =>
      match extract_tool_output_ref_id_from_value v with
      | some found => some found
      | none => extract_ref_from_items rest

end

/-- An optional string as serde serializes it (`null` when absent). -/
def opt_str_json : Option String → Json
  | some s => .str s
  | none => .null

/-- An optional boolean as serde serializes it. -/
def opt_bool_json : Option Bool → Json
  | some b => .bool b
  | none => .null

/-- `build_tool_batch_result_summary` (orchestrator.rs lines 2002-2050). -/
def build_tool_batch_result_summary (execution : ToolExecutionRecord) : Json :=
  let output_ref :=
    (execution.result.bind extract_tool_output_ref_id_from_value).getD "none"
  let metadata := (execution.result.bind fun value => value.get "metadata").getD .null
  let preview :=
    if execution.success then
      match execution.result.bind fun value =>
          match value.get "preview" with
          | some (.str s) => some s
          | _ => none with
      | some value => truncate_with_notice value PERSISTED_RESULT_PREVIEW_MAX_CHARS
      | none =>
          match execution.result with
          | some value =>
              (summarize_tool_output_value value PERSISTED_RESULT_PREVIEW_MAX_CHARS).1
          | none => "none"
    else execution.error.getD "Tool execution failed"
  .obj [("tool", .str execution.tool_name),
    ("execution_id", .str execution.execution_id),
    ("success", .bool execution.success),
    ("requested_output_mode", opt_str_json execution.requested_output_mode),
    ("resolved_output_mode", opt_str_json execution.resolved_output_mode),
    ("forced_persist", opt_bool_json execution.forced_persist),
    ("forced_reason", opt_str_json execution.forced_reason),
    ("output_ref", .str output_ref),
    ("metadata", metadata),
    ("preview", .str preview),
    ("error", opt_str_json execution.error)]

/-- `ControllerToolCallSpec` plus the observable outside world of one parallel
batch call: the cancellation flag read before submission, the registry
lookup, the argument validation verdict, the resolved outcome of the
timeout-wrapped handler call, the store outcome, and whether the worker
panicked (`catch_unwind`). -/
structure BatchCallInput where
  spec : ControllerToolCallSpec
  cancelled : Bool
  registry_tool : Option ToolDefM
  args_error : Option String
  execution_id : String
  execution_result : Except String Json
  store_result : Except String OutputRef
  panicked : Bool

/-- `ParallelToolCallInput` (orchestrator.rs lines 1767-1777), with the
handler and store abstracted by their outcomes. -/
structure ParallelToolCallInput where
  iteration : Nat
  execution_id : String
  tool_name : String
  args : Json
  requested_output_mode : OutputModeHint
  result_mode : ToolResultMode
  execution_result : Except String Json
  store_result : Except String OutputRef
  panicked : Bool

/-- `ParallelToolRunResult` (orchestrator.rs lines 1791-1804), minus the
wall-clock fields. -/
structure ParallelToolRunResult where
  iteration : Nat
  execution_id : String
  tool_name : String
  args : Json
  requested_output_mode : OutputModeHint
  output_delivery : Option OutputDeliveryResolution
  success : Bool
  output : Option Json
  error : Option String

/-- `ParallelToolRunResult::from_panic` (orchestrator.rs lines 1807-1826). -/
def ParallelToolRunResult.from_panic (call : ParallelToolCallInput) :
    ParallelToolRunResult :=
  { iteration := call.iteration
    execution_id := call.execution_id
    tool_name := call.tool_name
    args := call.args
    requested_output_mode := call.requested_output_mode
    output_delivery := none
    success := false
    output := some (error_message_json "Tool execution panicked")
    error := some "Tool execution panicked" }

/-- `execute_parallel_tool_call` (orchestrator.rs lines 1829-1957): the
timeout-wrapped handler call (whose resolved outcome is this call's
`execution_result` input, see `execute_tool_handler_with_timeout`) followed
by the shared classification. -/
def execute_parallel_tool_call (call : ParallelToolCallInput) : ParallelToolRunResult :=
  let cls := classify_tool_result call.tool_name call.requested_output_mode
    call.result_mode call.execution_result call.store_result
  { iteration := call.iteration
    execution_id := call.execution_id
    tool_name := call.tool_name
    args := call.args
    requested_output_mode := call.requested_output_mode
    output_delivery := cls.output_delivery
    success := cls.success
    output := cls.output
    error := cls.error }

/-- The `catch_unwind` worker wrapper (orchestrator.rs lines 1276-1281): a
panic becomes the fixed failed result. -/
def run_parallel_worker (call : ParallelToolCallInput) : ParallelToolRunResult :=
  if call.panicked then .from_panic call else execute_parallel_tool_call call

/-- The record built from one parallel run result (orchestrator.rs lines
1346-1369). -/
def ParallelToolRunResult.toRecord (result : ParallelToolRunResult) :
    ToolExecutionRecord :=
  { execution_id := result.execution_id
    tool_name := result.tool_name
    args := result.args
    result := result.output
    success := result.success
    error := result.error
    iteration := result.iteration
    requested_output_mode := some result.requested_output_mode.as_str
    resolved_output_mode := result.output_delivery.map
      fun delivery => delivery.resolved_output_mode.as_str
    forced_persist := result.output_delivery.map fun delivery => delivery.forced_persist
    forced_reason := result.output_delivery.bind fun delivery => delivery.forced_reason }

/-- `run_results.sort_by_key(|result| result.iteration)` (orchestrator.rs line
1295). -/
def sort_run_results_by_iteration (run_results : List ParallelToolRunResult) :
    List ParallelToolRunResult :=
  run_results.insertionSort fun a b => a.iteration ≤ b.iteration

/-- Accumulated batch aggregation state: per-call summaries and records in
order, the success count and the first error. -/
structure BatchAggregate where
  first_error : Option String
  results_summary : List Json
  tool_executions : List ToolExecutionRecord
  successful_calls : Nat

/-- The aggregation loop over joined parallel results (orchestrator.rs lines
1284-1386): results are resequenced by their assigned iteration number, then
folded in that order onto whatever the submission loop accumulated. -/
def aggregate_parallel_results (submission : BatchAggregate)
    (run_results : List ParallelToolRunResult) : BatchAggregate :=
  (sort_run_results_by_iteration run_results).foldl
    (fun acc result =>
      let record := result.toRecord
      { first_error :=
          if result.success then acc.first_error
          else if acc.first_error.isNone then result.error else acc.first_error
        results_summary := acc.results_summary ++ [build_tool_batch_result_summary record]
        tool_executions := acc.tool_executions ++ [record]
        successful_calls :=
          if result.success then acc.successful_calls + 1 else acc.successful_calls })
    submission

/-- The submission loop of the parallel batch (orchestrator.rs lines
1147-1260): per call, check cancellation, parse the requested mode, run
the preflight (unknown tool / invalid args are folded straight into the
aggregate without consuming an iteration number), and queue the runnable
call under the next iteration number. -/
def submit_batch_calls_go : List BatchCallInput → Nat → BatchAggregate →
    Except String (BatchAggregate × List ParallelToolCallInput)
  | [], _, acc => .ok (acc, [])
  | call :: rest, iteration_cursor, acc =>
      if call.cancelled then .error "Cancelled"
      else
        match parse_output_mode_hint call.spec.output_mode with
        | .error e => .error e
        | .ok requested_output_mode =>
            let tool_name := rust_trim call.spec.tool
            let iteration := iteration_cursor
            let preflight := fun (failed : StepResult) =>
              let acc :=
                match failed.tool_executions.getLast? with
                | some execution =>
                    { acc with
                      results_summary := acc.results_summary ++
                        [build_tool_batch_result_summary execution]
                      tool_executions := acc.tool_executions ++ [execution] }
                | none => acc
              { acc with first_error :=
                  if acc.first_error.isNone then failed.error else acc.first_error }
            match call.registry_tool with
            | none =>
                submit_batch_calls_go rest iteration_cursor
                  (preflight (preflight_failed_step_result call.execution_id tool_name
                    call.spec.args iteration ("Unknown tool: " ++ tool_name)))
            | some tool =>
                match call.args_error with
                | some err =>
                    submit_batch_calls_go rest iteration_cursor
                      (preflight (preflight_failed_step_result call.execution_id
                        tool_name call.spec.args iteration err))
                | none =>
                    match submit_batch_calls_go rest (iteration_cursor + 1) acc with
                    | .error e => .error e
                    | .ok (acc2, runnable) =>
                        let runnable_call : ParallelToolCallInput :=
                          { iteration := iteration,
                            execution_id := call.execution_id,
                            tool_name := tool_name,
                            args := call.spec.args,
                            requested_output_mode := requested_output_mode,
                            result_mode := tool.result_mode,
                            execution_result := call.execution_result,
                            store_result := call.store_result,
                            panicked := call.panicked }
                        .ok (acc2, runnable_call :: runnable)

/-- `clamp_tool_batch_calls_to_remaining_capacity` (orchestrator.rs lines
1779-1789), generalized over the element type (the source clamps the spec
list before per-call processing). -/
def clamp_tool_batch_calls_to_remaining_capacity {α : Type} (calls : List α)
    (remaining_capacity : Nat) : List α × Nat :=
  if calls.length ≤ remaining_capacity then (calls, 0)
  else (calls.take remaining_capacity, calls.length - remaining_capacity)

/-- The empty-batch rejection of `execute_tool_batch` (orchestrator.rs lines
1075-1089): a non-fatal failed step result. -/
def empty_batch_step_result : StepResult :=
  { success := false
    output := some (.obj [("success", .bool false),
      ("message", .str "tool_batch requires at least one tool call")])
    error := some "tool_batch requires at least one tool call"
    tool_executions := [] }

/-- The zero-capacity rejection of `execute_tool_batch` (orchestrator.rs
lines 1096-1116): a non-fatal failed step result reporting the request and
the remaining capacity (but no executed/dropped counts). -/
def capacity_exhausted_step_result (requested_calls remaining_capacity : Nat) :
    StepResult :=
  let error := "tool_batch requested " ++ natDecimalString requested_calls ++
    " calls but only " ++ natDecimalString remaining_capacity ++
    " tool calls remain in this step"
  { success := false
    output := some (.obj [("success", .bool false), ("message", .str error),
      ("requested_calls", .num requested_calls),
      ("remaining_tool_calls", .num remaining_capacity)])
    error := some error
    tool_executions := [] }

/-- The aggregated output object of the parallel batch (orchestrator.rs lines
1388-1402). -/
def parallel_batch_output (requested_calls dropped_calls : Nat)
    (agg : BatchAggregate) (success : Bool) : Json :=
  let total_calls := agg.results_summary.length
  .obj [("success", .bool success),
    ("batch_size", .num total_calls),
    ("requested_calls", .num requested_calls),
    ("executed_calls", .num total_calls),
    ("dropped_calls", .num dropped_calls),
    ("successful_calls", .num agg.successful_calls),
    ("failed_calls", .num (total_calls - agg.successful_calls)),
    ("execution_mode", .str "parallel"),
    ("results", .arr agg.results_summary)]

/-- The parallel execution pipeline over the admitted calls (orchestrator.rs
lines 1147-1412): submission loop, one worker per runnable call, join,
resequencing and aggregation. -/
def run_tool_batch_parallel (admitted : List BatchCallInput)
    (tool_calls_in_current_step requested_calls dropped_calls : Nat) :
    Except String StepResult :=
  match submit_batch_calls_go admitted (tool_calls_in_current_step + 1)
      { first_error := none, results_summary := [], tool_executions := [],
        successful_calls := 0 } with
  | .error e => .error e
  | .ok (submission, runnable) =>
      let run_results := runnable.map run_parallel_worker
      let agg := aggregate_parallel_results submission run_results
      let success := agg.first_error.isNone
      .ok { success
            output := some (parallel_batch_output requested_calls dropped_calls agg
              success)
            error := agg.first_error
            tool_executions := agg.tool_executions }

/-- Whether the admitted calls force the sequential path (orchestrator.rs
lines 1129-1134): some admitted call resolves to a registered tool that
requires approval.  The per-call resolved requirement is carried on the
registry view. -/
def batch_requires_sequential (admitted : List BatchCallInput) : Bool :=
  admitted.any fun call =>
    match call.registry_tool with
    | some tool => tool.requires_approval
    | none => false

/-- Outcome of the batch dispatcher: either a completed (fatal or non-fatal)
result, or the hand-off to the sequential engine with the admitted calls and
the request/drop counters (orchestrator.rs lines 1135-1145; the sequential
engine itself is `execute_tool_batch_sequential_model`, whose per-call inputs
carry the extra approval observables). -/
inductive BatchModelOutcome where
  | completed (result : Except String StepResult) : BatchModelOutcome
  | sequentialDispatch (admitted : List BatchCallInput)
      (requested_calls dropped_calls : Nat) : BatchModelOutcome

/-- `DynamicController::execute_tool_batch` (orchestrator.rs lines
1067-1412): empty-batch and zero-capacity rejection (non-fatal failed step
results), tail clamping to the remaining capacity, the sequential dispatch
when an admitted call requires approval, and the parallel pipeline
otherwise. -/
def execute_tool_batch_model (calls : List BatchCallInput)
    (tool_calls_in_current_step max_tool_calls_per_step : Nat) :
    BatchModelOutcome :=
  let requested_calls := calls.length
  if calls.isEmpty then .completed (.ok empty_batch_step_result)
  else
    let remaining_capacity :=
      max_tool_calls_per_step - tool_calls_in_current_step
    if remaining_capacity = 0 then
      .completed (.ok (capacity_exhausted_step_result requested_calls
        remaining_capacity))
    else
      let clamped := clamp_tool_batch_calls_to_remaining_capacity calls
        remaining_capacity
      if batch_requires_sequential clamped.1 then
        .sequentialDispatch clamped.1 requested_calls clamped.2
      else
        .completed (run_tool_batch_parallel clamped.1 tool_calls_in_current_step
          requested_calls clamped.2)

/-- One call of a sequential batch: the spec fields plus the full
single-tool execution environment (approval observables included). -/
structure SequentialBatchCall where
  tool : String
  output_mode : Option String
  env : ToolCallEnv

/-- The per-call fold of `execute_tool_batch_sequential` (orchestrator.rs
lines 1428-1450), threading the per-step tool-call counter through
`execute_tool_model`. -/
def execute_tool_batch_sequential_go (timeout_ms approval_timeout_ms cap : Nat) :
    List SequentialBatchCall → Nat → BatchAggregate →
    Except String (BatchAggregate × Nat)
  | [], counter, acc => .ok (acc, counter)
  | call :: rest, counter, acc =>
      match parse_output_mode_hint call.output_mode with
      | .error e => .error e
      | .ok requested_output_mode =>
          let tool_name := rust_trim call.tool
          match execute_tool_model call.env tool_name requested_output_mode
              timeout_ms approval_timeout_ms counter cap with
          | .error e => .error e
          | .ok (call_result, counter2) =>
              let acc :=
                { first_error :=
                    if call_result.success then acc.first_error
                    else if acc.first_error.isNone then
                      some (call_result.error.getD
                        ("Tool execution failed: " ++ tool_name))
                    else acc.first_error
                  successful_calls :=
                    if call_result.success then acc.successful_calls + 1
                    else acc.successful_calls
                  results_summary :=
                    match call_result.tool_executions.getLast? with
                    | some execution => acc.results_summary ++
                        [build_tool_batch_result_summary execution]
                    | none => acc.results_summary
                  tool_executions := acc.tool_executions ++
                    call_result.tool_executions }
              execute_tool_batch_sequential_go timeout_ms approval_timeout_ms cap
                rest counter2 acc

/-- The aggregated output object of the sequential batch (orchestrator.rs
lines 1452-1466). -/
def sequential_batch_output (requested_calls dropped_calls : Nat)
    (agg : BatchAggregate) (success : Bool) : Json :=
  let total_calls := agg.results_summary.length
  .obj [("success", .bool success),
    ("batch_size", .num total_calls),
    ("requested_calls", .num requested_calls),
    ("executed_calls", .num total_calls),
    ("dropped_calls", .num dropped_calls),
    ("successful_calls", .num agg.successful_calls),
    ("failed_calls", .num (total_calls - agg.successful_calls)),
    ("execution_mode", .str "sequential"),
    ("results", .arr agg.results_summary)]

/-- `DynamicController::execute_tool_batch_sequential` (orchestrator.rs lines
1415-1477). -/
def execute_tool_batch_sequential_model (calls : List SequentialBatchCall)
    (timeout_ms approval_timeout_ms : Nat)
    (tool_calls_in_current_step max_tool_calls_per_step : Nat)
    (requested_calls dropped_calls : Nat) : Except String StepResult :=
  match execute_tool_batch_sequential_go timeout_ms approval_timeout_ms
      max_tool_calls_per_step calls tool_calls_in_current_step
      { first_error := none, results_summary := [], tool_executions := [],
        successful_calls := 0 } with
  | .error e => .error e
  | .ok (agg, _) =>
      let success := agg.first_error.isNone
      .ok { success
            output := some (sequential_batch_output requested_calls dropped_calls
              agg success)
            error := agg.first_error
            tool_executions := agg.tool_executions }

/-- Counterexample to C6 as stated: a successful call to a plain tool whose
delivery resolves to Inline still attempts artifact persistence. -/
theorem persistence_attempted_for_inline_resolution :
    (classify_tool_result "echo" .inline .auto (.ok (Json.str "hi"))
        (.ok { id := "ref-1", storage := "sqlite" })).persist_attempted = true ∧
    (classify_tool_result "echo" .inline .auto (.ok (Json.str "hi"))
        (.ok { id := "ref-1", storage := "sqlite" })).output_delivery =
      some { requested_output_mode := .inline, resolved_output_mode := .inline,
             forced_persist := false, forced_reason := none } := by
  constructor
  · rfl
  · rfl

/-- C6 (amended): for a successful tool invocation, artifact persistence is
attempted exactly when the tool is outside the introspection namespace
(whatever the resolved delivery mode); a persistence failure downgrades the
outcome to success=false with a descriptive error exactly when the resolved
mode is Persist, while under an Inline resolution the call stays successful
(the failure surfacing only as a warning); and a failed handler call never
attempts persistence. -/
theorem persistence_attempt_and_downgrade (tool_name : String)
    (requested : OutputModeHint) (result_mode : ToolResultMode)
    (output_value : Json) (store_result : Except String OutputRef) :
    ((classify_tool_result tool_name requested result_mode (.ok output_value)
        store_result).persist_attempted = !starts_with tool_name "tool_outputs.") ∧
    (∀ e, (classify_tool_result tool_name requested result_mode (.error e)
        store_result).persist_attempted = false) ∧
    (∀ err, store_result = .error err →
      (resolve_output_delivery tool_name requested result_mode
          (value_char_len output_value)).resolved_output_mode = .persist →
      (classify_tool_result tool_name requested result_mode (.ok output_value)
          store_result).success = false ∧
      (classify_tool_result tool_name requested result_mode (.ok output_value)
          store_result).error =
        some ("Failed to persist tool output: " ++ err)) ∧
    ((resolve_output_delivery tool_name requested result_mode
        (value_char_len output_value)).resolved_output_mode = .inline →
      (classify_tool_result tool_name requested result_mode (.ok output_value)
          store_result).success = true ∧
      (∀ err, store_result = .error err →
        starts_with tool_name "tool_outputs." = false →
        (classify_tool_result tool_name requested result_mode (.ok output_value)
            store_result).artifact_persist_warning =
          some ("Failed to persist tool output: " ++ err))) ∧
    (∀ (iteration : Nat) (execution_id : String) (args : Json),
      (execute_parallel_tool_call ⟨iteration, execution_id, tool_name, args,
          requested, result_mode, .ok output_value, store_result, false⟩).success =
        (classify_tool_result tool_name requested result_mode (.ok output_value)
          store_result).success ∧
      (execute_parallel_tool_call ⟨iteration, execution_id, tool_name, args,
          requested, result_mode, .ok output_value, store_result, false⟩).error =
        (classify_tool_result tool_name requested result_mode (.ok output_value)
          store_result).error) := by
  refine ⟨?_, ?_, ?_, ?_, ?_⟩
  · simp only [classify_tool_result]
    split <;> (try split) <;> (try split) <;> rfl
  · intro e
    rfl
  · intro err hstore hres
    subst hstore
    by_cases hstart : starts_with tool_name "tool_outputs."
    · exfalso
      simp [resolve_output_delivery, hstart] at hres
    · simp only [Bool.not_eq_true] at hstart
      constructor <;>
        simp [classify_tool_result, hstart, hres]
  · intro hres
    constructor
    · simp [classify_tool_result, hres]
    · intro err hstore hstart
      subst hstore
      simp [classify_tool_result, hres, hstart]
  · intro iteration execution_id args
    exact ⟨rfl, rfl⟩

/-- Witness for C6 at a concrete persist-mode call with a failing store. -/
theorem persistence_attempt_and_downgrade_witness :
    (resolve_output_delivery "db.query" .persist .auto
        (value_char_len (Json.str "row"))).resolved_output_mode = .persist ∧
    (classify_tool_result "db.query" .persist .auto (.ok (Json.str "row"))
        (.error "disk full")).success = false :=
  ⟨by decide,
    ((persistence_attempt_and_downgrade "db.query" .persist .auto (Json.str "row")
      (.error "disk full")).2.2.1 "disk full" rfl (by decide)).1⟩

/-- A resolved approval wait that denies carries one of the two forced
reasons, or none (the plain human denial). -/
theorem approval_wait_loop_denied_reason (approval_timeout_ms : Nat)
    (polls : List ApprovalPoll) (forced : Option String)
    (h : approval_wait_loop approval_timeout_ms polls =
      some (.ok (.denied, forced))) :
    forced = none ∨ forced = some "Tool approval timed out" ∨
      forced = some "Tool execution cancelled" := by
  induction polls with
  | nil => simp [approval_wait_loop] at h
  | cons poll rest ih =>
    unfold approval_wait_loop at h
    by_cases hc : poll.cancelled
    · rw [if_pos hc] at h
      simp at h
      right; right; exact h.symm
    · rw [if_neg hc] at h
      cases hr : poll.recv with
      | received decision =>
        rw [hr] at h
        simp at h
        left; exact h.2.symm
      | timeout =>
        rw [hr] at h
        by_cases ht : approval_timeout_ms ≤ poll.elapsed_ms
        · rw [if_pos ht] at h
          simp at h
          right; left; exact h.symm
        · rw [if_neg ht] at h
          exact ih h
      | disconnected =>
        rw [hr] at h
        simp at h

/-- C5 (amended): a required approval whose wait ends in denial
short-circuits the invocation: the handler, timeout machinery and store are
never consulted (the outcome is invariant under changing them), the step
result and its record are failed with the corresponding denial reason
(human denial, timeout, or cancellation), and — the step error being the
denial reason — a single-tool step terminates the run with the fixed apology
message.  (In a sequential batch the step error is the batch's first error,
so an earlier failure can mask the denial; see the counterexample.) -/
theorem approval_denial_short_circuit (env : ToolCallEnv) (tool_name : String)
    (requested : OutputModeHint) (timeout_ms approval_timeout_ms : Nat)
    (counter cap : Nat) (tool : ToolDefM) (forced : Option String)
    (hquota : counter < cap)
    (htool : env.registry_tool = some tool)
    (hargs : env.args_error = none)
    (happroval : env.requires_approval_resolved = true)
    (hwait : approval_wait_loop approval_timeout_ms env.approval_polls =
      some (.ok (.denied, forced))) :
    execute_tool_model env tool_name requested timeout_ms approval_timeout_ms
        counter cap =
      .ok (denied_step_result env.execution_id tool_name env.args (counter + 1)
        requested forced, counter) ∧
    (∀ (handler_result2 : Except String Json) (timeout_polls2 : List TimeoutPoll)
        (store_result2 : Except String OutputRef),
      execute_tool_model
          { env with handler_result := handler_result2, timeout_polls := timeout_polls2, store_result := store_result2 }
          tool_name requested timeout_ms approval_timeout_ms counter cap =
      execute_tool_model env tool_name requested timeout_ms approval_timeout_ms
        counter cap) ∧
    (denied_step_result env.execution_id tool_name env.args (counter + 1)
        requested forced).success = false ∧
    (denied_step_result env.execution_id tool_name env.args (counter + 1)
        requested forced).error =
      some (forced.getD "Tool execution denied by approval") ∧
    (∀ record ∈ (denied_step_result env.execution_id tool_name env.args
        (counter + 1) requested forced).tool_executions,
      record.success = false ∧
        record.error = some (forced.getD "Tool execution denied by approval")) ∧
    (forced.getD "Tool execution denied by approval" =
        "Tool execution denied by approval" ∨
      forced.getD "Tool execution denied by approval" = "Tool approval timed out" ∨
      forced.getD "Tool execution denied by approval" = "Tool execution cancelled") ∧
    flat_step_termination
        (some (forced.getD "Tool execution denied by approval")) =
      some "Okay, stopping since the tool request wasn't approved. Let me know how you'd like to continue." := by
  have hreason := approval_wait_loop_denied_reason approval_timeout_ms
    env.approval_polls forced hwait
  have hmain : execute_tool_model env tool_name requested timeout_ms
      approval_timeout_ms counter cap =
      .ok (denied_step_result env.execution_id tool_name env.args (counter + 1)
        requested forced, counter) := by
    simp only [execute_tool_model, htool, hargs, happroval, hwait,
      if_neg (not_le.mpr hquota), if_true]
  have hreason3 : forced.getD "Tool execution denied by approval" =
        "Tool execution denied by approval" ∨
      forced.getD "Tool execution denied by approval" = "Tool approval timed out" ∨
      forced.getD "Tool execution denied by approval" =
        "Tool execution cancelled" := by
    rcases hreason with h | h | h <;> subst h
    · left; rfl
    · right; left; rfl
    · right; right; rfl
  refine ⟨hmain, ?_, rfl, rfl, ?_, hreason3, ?_⟩
  · intro handler_result2 timeout_polls2 store_result2
    rw [hmain]
    simp only [execute_tool_model, htool, hargs, happroval, hwait,
      if_neg (not_le.mpr hquota), if_true]
  · intro record hrecord
    simp only [denied_step_result, List.mem_singleton] at hrecord
    subst hrecord
    exact ⟨rfl, rfl⟩
  · simp only [flat_step_termination]
    rw [if_pos hreason3]

/-- Witness for C5: a concrete denied approval short-circuits into the denial
step result. -/
theorem approval_denial_short_circuit_witness :
    (0 : Nat) < 3 ∧
    execute_tool_model
        ⟨"exec-1", Json.null, some ⟨true, .auto⟩, none, true,
          [⟨false, 0, .received .denied⟩], false, .ok Json.null, [],
          .ok ⟨"r", "s"⟩⟩
        "fs.delete" .auto 0 1000 0 3 =
      .ok (denied_step_result "exec-1" "fs.delete" Json.null 1 .auto none, 0) :=
  ⟨by decide,
    (approval_denial_short_circuit
      ⟨"exec-1", Json.null, some ⟨true, .auto⟩, none, true,
        [⟨false, 0, .received .denied⟩], false, .ok Json.null, [],
        .ok ⟨"r", "s"⟩⟩
      "fs.delete" .auto 0 1000 0 3 ⟨true, .auto⟩
      none (by decide) rfl rfl rfl rfl).1⟩

/-- Projection used to state batch counterexamples without binders. -/
def step_result_of : Except String StepResult → Option StepResult
  | .ok result => some result
  | .error _ => none

/-- Counterexample to C5 as stated: in a sequential batch whose first call
already failed (unknown tool), a later denied approval still yields a failed
record with the denial reason, but the step's error is the earlier failure,
so the run does not terminate with the apology message. -/
theorem approval_denial_masked_in_sequential_batch :
    (step_result_of (execute_tool_batch_sequential_model
        [⟨"missing.tool", none, ⟨"exec-1", Json.null, none, none, false, [],
            false, .ok Json.null, [], .ok ⟨"r", "s"⟩⟩⟩,
         ⟨"fs.delete", none, ⟨"exec-2", Json.null, some ⟨true, .auto⟩, none, true,
            [⟨false, 0, .received .denied⟩], false, .ok Json.null, [],
            .ok ⟨"r", "s"⟩⟩⟩]
        0 1000 0 5 2 0)).map
      (fun result => (result.error, flat_step_termination result.error,
        result.tool_executions.map fun record =>
          (record.tool_name, record.success, record.error))) =
    some (some "Unknown tool: missing.tool", none,
      [("missing.tool", false, some "Unknown tool: missing.tool"),
       ("fs.delete", false, some "Tool execution denied by approval")]) := by
  rfl

instance : IsTotal ParallelToolRunResult
    (fun a b => a.iteration ≤ b.iteration) :=
  ⟨fun a b => Nat.le_total a.iteration b.iteration⟩

instance : IsTrans ParallelToolRunResult
    (fun a b => a.iteration ≤ b.iteration) :=
  ⟨fun _ _ _ => Nat.le_trans⟩

instance : IsAntisymm ParallelToolRunResult
    (fun a b => a.iteration < b.iteration) :=
  ⟨fun _ _ h1 h2 => absurd h2 (Nat.lt_asymm h1)⟩

/-- A list sorted by iteration with pairwise-distinct iteration numbers is
sorted strictly. -/
theorem sorted_strict_of_sorted_nodup (l : List ParallelToolRunResult)
    (hs : l.Sorted fun a b => a.iteration ≤ b.iteration)
    (hn : (l.map fun r => r.iteration).Nodup) :
    l.Sorted fun a b => a.iteration < b.iteration := by
  have hp : l.Pairwise fun a b => a.iteration ≠ b.iteration :=
    List.pairwise_map.mp hn
  exact (hs.and hp).imp fun h => lt_of_le_of_ne h.1 h.2

/-- Resequencing by iteration number erases the completion order: any two
permutations of the same per-call results with distinct iteration numbers
sort identically. -/
theorem sort_run_results_deterministic (rs1 rs2 : List ParallelToolRunResult)
    (hperm : rs1.Perm rs2)
    (hnodup : (rs1.map fun r => r.iteration).Nodup) :
    sort_run_results_by_iteration rs1 = sort_run_results_by_iteration rs2 := by
  have hps1 : (sort_run_results_by_iteration rs1).Perm rs1 :=
    List.perm_insertionSort _ rs1
  have hps2 : (sort_run_results_by_iteration rs2).Perm rs2 :=
    List.perm_insertionSort _ rs2
  have hnodup2 : (rs2.map fun r => r.iteration).Nodup :=
    ((hperm.map fun r => r.iteration).nodup_iff).mp hnodup
  have hn1 : ((sort_run_results_by_iteration rs1).map fun r => r.iteration).Nodup :=
    ((hps1.map fun r => r.iteration).nodup_iff).mpr hnodup
  have hn2 : ((sort_run_results_by_iteration rs2).map fun r => r.iteration).Nodup :=
    ((hps2.map fun r => r.iteration).nodup_iff).mpr hnodup2
  have hs1 : (sort_run_results_by_iteration rs1).Sorted
      fun a b => a.iteration ≤ b.iteration :=
    List.sorted_insertionSort _ rs1
  have hs2 : (sort_run_results_by_iteration rs2).Sorted
      fun a b => a.iteration ≤ b.iteration :=
    List.sorted_insertionSort _ rs2
  exact List.eq_of_perm_of_sorted
    (hps1.trans (hperm.trans hps2.symm))
    (sorted_strict_of_sorted_nodup _ hs1 hn1)
    (sorted_strict_of_sorted_nodup _ hs2 hn2)

/-- C8: the parallel batch aggregate (per-call records and summaries in
order, success count, first error) is invariant under any permutation of the
worker completion order, because results are resequenced by their assigned
iteration numbers (which are pairwise distinct) before aggregation. -/
theorem parallel_aggregation_completion_order_invariant
    (submission : BatchAggregate) (rs1 rs2 : List ParallelToolRunResult)
    (hperm : rs1.Perm rs2)
    (hnodup : (rs1.map fun r => r.iteration).Nodup) :
    aggregate_parallel_results submission rs1 =
      aggregate_parallel_results submission rs2 := by
  unfold aggregate_parallel_results
  rw [sort_run_results_deterministic rs1 rs2 hperm hnodup]

/-- Witness for C8: a concrete two-result batch aggregates identically in
either completion order. -/
theorem parallel_aggregation_completion_order_invariant_witness :
    ([⟨1, "e1", "tool.a", Json.null, .auto, none, true, none, none⟩,
      ⟨2, "e2", "tool.b", Json.null, .auto, none, false, none, some "boom"⟩] :
        List ParallelToolRunResult).Perm
      [⟨2, "e2", "tool.b", Json.null, .auto, none, false, none, some "boom"⟩,
       ⟨1, "e1", "tool.a", Json.null, .auto, none, true, none, none⟩] ∧
    aggregate_parallel_results ⟨none, [], [], 0⟩
        [⟨1, "e1", "tool.a", Json.null, .auto, none, true, none, none⟩,
         ⟨2, "e2", "tool.b", Json.null, .auto, none, false, none, some "boom"⟩] =
      aggregate_parallel_results ⟨none, [], [], 0⟩
        [⟨2, "e2", "tool.b", Json.null, .auto, none, false, none, some "boom"⟩,
         ⟨1, "e1", "tool.a", Json.null, .auto, none, true, none, none⟩] :=
  ⟨List.Perm.swap _ _ _,
    parallel_aggregation_completion_order_invariant ⟨none, [], [], 0⟩ _ _
      (List.Perm.swap _ _ _) (by decide)⟩

/-- One fold step of the aggregation appends exactly one summary, so the
aggregate's summary count is the seed's plus the number of run results. -/
theorem aggregate_results_summary_length (submission : BatchAggregate)
    (run_results : List ParallelToolRunResult) :
    (aggregate_parallel_results submission run_results).results_summary.length =
      submission.results_summary.length + run_results.length := by
  unfold aggregate_parallel_results
  have hlen : (sort_run_results_by_iteration run_results).length =
      run_results.length :=
    (List.perm_insertionSort _ run_results).length_eq
  rw [← hlen]
  generalize sort_run_results_by_iteration run_results = sorted
  induction sorted generalizing submission with
  | nil => simp
  | cons result rest ih =>
    simp only [List.foldl_cons, List.length_cons, ih]
    simp [List.length_append]
    omega

/-- Every admitted call contributes exactly one entry (a preflight failure
summary or a runnable call) to the submission, provided no call observes the
cancellation flag and every requested output mode parses. -/
theorem submit_batch_calls_go_counts (calls : List BatchCallInput)
    (cursor : Nat) (acc : BatchAggregate)
    (hok : ∀ call ∈ calls, call.cancelled = false ∧
      ∃ mode, parse_output_mode_hint call.spec.output_mode = .ok mode) :
    ∃ acc2 runnable, submit_batch_calls_go calls cursor acc = .ok (acc2, runnable) ∧
      acc2.results_summary.length + runnable.length =
        acc.results_summary.length + calls.length := by
  induction calls generalizing cursor acc with
  | nil => exact ⟨acc, [], rfl, by simp⟩
  | cons call rest ih =>
    obtain ⟨hcancel, mode, hmode⟩ := hok call (List.mem_cons_self call rest)
    have hrest : ∀ c ∈ rest, c.cancelled = false ∧
        ∃ m, parse_output_mode_hint c.spec.output_mode = .ok m :=
      fun c hc => hok c (List.mem_cons_of_mem call hc)
    unfold submit_batch_calls_go
    rw [hcancel, hmode]
    simp only [Bool.false_eq_true, if_false]
    cases hreg : call.registry_tool with
    | none =>
      simp only [preflight_failed_step_result, error_message_json,
        List.getLast?_singleton]
      obtain ⟨acc2, runnable, heq, hlen⟩ := ih cursor _ hrest
      refine ⟨acc2, runnable, heq, ?_⟩
      rw [hlen]
      simp
      omega
    | some tool =>
      cases hargs : call.args_error with
      | some err =>
        simp only [preflight_failed_step_result, error_message_json,
          List.getLast?_singleton]
        obtain ⟨acc2, runnable, heq, hlen⟩ := ih cursor _ hrest
        refine ⟨acc2, runnable, heq, ?_⟩
        rw [hlen]
        simp
        omega
      | none =>
        obtain ⟨acc2, runnable, heq, hlen⟩ := ih (cursor + 1) acc hrest
        rw [heq]
        refine ⟨acc2, _ :: runnable, rfl, ?_⟩
        simp only [List.length_cons]
        omega

/-- The aggregated parallel output reports the request, execution and drop
counters in its fixed fields. -/
theorem parallel_batch_output_get_counts (requested_calls dropped_calls : Nat)
    (agg : BatchAggregate) (success : Bool) :
    (parallel_batch_output requested_calls dropped_calls agg success).get
        "requested_calls" = some (.num requested_calls) ∧
    (parallel_batch_output requested_calls dropped_calls agg success).get
        "executed_calls" = some (.num agg.results_summary.length) ∧
    (parallel_batch_output requested_calls dropped_calls agg success).get
        "dropped_calls" = some (.num dropped_calls) :=
  ⟨rfl, rfl, rfl⟩

/-- A single-tool execution that hits no fatal condition (quota respected,
no cancellation, resolving waits) returns a non-fatal step result carrying
exactly one execution record, and advances the per-step counter by at most
one (only an actual handler invocation increments it). -/
theorem execute_tool_model_ok (env : ToolCallEnv) (tool_name : String)
    (requested : OutputModeHint) (timeout_ms approval_timeout_ms counter cap : Nat)
    (hquota : counter < cap)
    (hcancel : env.cancelled_after_approval = false)
    (htimeout : (execute_tool_handler_with_timeout timeout_ms env.handler_result
      env.timeout_polls).isSome = true)
    (happroval : env.requires_approval_resolved = true →
      ∃ decision forced, approval_wait_loop approval_timeout_ms env.approval_polls =
        some (.ok (decision, forced))) :
    ∃ result counter2,
      execute_tool_model env tool_name requested timeout_ms approval_timeout_ms
          counter cap = .ok (result, counter2) ∧
      result.tool_executions.length = 1 ∧ counter2 ≤ counter + 1 := by
  obtain ⟨execution_result, hres⟩ := Option.isSome_iff_exists.mp htimeout
  unfold execute_tool_model
  rw [if_neg (not_le.mpr hquota)]
  cases hreg : env.registry_tool with
  | none =>
    refine ⟨_, _, rfl, ?_, by omega⟩
    simp [preflight_failed_step_result]
  | some tool =>
    cases hargs : env.args_error with
    | some err =>
      refine ⟨_, _, rfl, ?_, by omega⟩
      simp [preflight_failed_step_result]
    | none =>
      simp only [hcancel, Bool.false_eq_true, if_false, hres]
      by_cases hra : env.requires_approval_resolved = true
      · obtain ⟨decision, forced, hwait⟩ := happroval hra
        simp only [hra, if_true, hwait]
        cases decision with
        | approved => exact ⟨_, _, rfl, rfl, by omega⟩
        | denied =>
          refine ⟨_, _, rfl, ?_, by omega⟩
          simp [denied_step_result]
      · simp only [if_neg hra]
        exact ⟨_, _, rfl, rfl, by omega⟩

/-- Every call of a sequential batch contributes exactly one summary to the
aggregate, provided each call avoids the fatal conditions (its mode parses,
it is not cancelled, and its waits resolve) and the batch fits the remaining
per-step quota. -/
theorem execute_tool_batch_sequential_go_counts
    (timeout_ms approval_timeout_ms cap : Nat) (calls : List SequentialBatchCall)
    (counter : Nat) (acc : BatchAggregate)
    (hcap : counter + calls.length ≤ cap)
    (hok : ∀ call ∈ calls,
      (∃ mode, parse_output_mode_hint call.output_mode = .ok mode) ∧
      call.env.cancelled_after_approval = false ∧
      (execute_tool_handler_with_timeout timeout_ms call.env.handler_result
        call.env.timeout_polls).isSome = true ∧
      (call.env.requires_approval_resolved = true →
        ∃ decision forced, approval_wait_loop approval_timeout_ms
          call.env.approval_polls = some (.ok (decision, forced)))) :
    ∃ agg counter2,
      execute_tool_batch_sequential_go timeout_ms approval_timeout_ms cap calls
          counter acc = .ok (agg, counter2) ∧
      agg.results_summary.length = acc.results_summary.length + calls.length := by
  induction calls generalizing counter acc with
  | nil => exact ⟨acc, counter, rfl, by simp⟩
  | cons call rest ih =>
    obtain ⟨⟨mode, hmode⟩, hcancel, htmo, happ⟩ := hok call
      (List.mem_cons_self call rest)
    have hrest : ∀ c ∈ rest,
        (∃ m, parse_output_mode_hint c.output_mode = .ok m) ∧
        c.env.cancelled_after_approval = false ∧
        (execute_tool_handler_with_timeout timeout_ms c.env.handler_result
          c.env.timeout_polls).isSome = true ∧
        (c.env.requires_approval_resolved = true →
          ∃ decision forced, approval_wait_loop approval_timeout_ms
            c.env.approval_polls = some (.ok (decision, forced))) :=
      fun c hc => hok c (List.mem_cons_of_mem call hc)
    have hlen_cons : (call :: rest).length = rest.length + 1 := rfl
    have hquota : counter < cap := by omega
    obtain ⟨result, counter2, hexec, hlen1, hcounter⟩ :=
      execute_tool_model_ok call.env (rust_trim call.tool) mode timeout_ms
        approval_timeout_ms counter cap hquota hcancel htmo happ
    obtain ⟨e, he⟩ := List.length_eq_one.mp hlen1
    unfold execute_tool_batch_sequential_go
    rw [hmode]
    simp only [hexec, he, List.getLast?_singleton]
    obtain ⟨agg, counter3, hgo, hlen⟩ := ih counter2 _
      (by omega) hrest
    refine ⟨agg, counter3, hgo, ?_⟩
    rw [hlen]
    simp
    omega

/-- The aggregated sequential output reports the request, execution and drop
counters in its fixed fields. -/
theorem sequential_batch_output_get_counts (requested_calls dropped_calls : Nat)
    (agg : BatchAggregate) (success : Bool) :
    (sequential_batch_output requested_calls dropped_calls agg success).get
        "requested_calls" = some (.num requested_calls) ∧
    (sequential_batch_output requested_calls dropped_calls agg success).get
        "executed_calls" = some (.num agg.results_summary.length) ∧
    (sequential_batch_output requested_calls dropped_calls agg success).get
        "dropped_calls" = some (.num dropped_calls) :=
  ⟨rfl, rfl, rfl⟩

/-- C4 (amended): with remaining capacity `c` satisfying `0 < c < k`, a
`k`-call batch is clamped to exactly its first `c` calls in order and the
`k-c` tail is dropped; the dispatcher hands that prefix (with the `k` and
`k-c` counters) to the parallel pipeline when no admitted call requires
approval and to the sequential engine otherwise; on either path the
aggregated result reports `requested_calls = k`, `executed_calls = c`,
`dropped_calls = k-c` (each admitted call contributing exactly one per-call
entry); and an empty batch yields the fixed non-fatal failed step result.
(With `c = 0` the source instead rejects the batch outright with a result
that reports only the request and the remaining capacity; see the
counterexample.) -/
theorem tool_batch_clamps_and_reports (calls : List BatchCallInput)
    (tool_calls_in_current_step max_tool_calls_per_step c : Nat)
    (hc : max_tool_calls_per_step - tool_calls_in_current_step = c)
    (hpos : 0 < c) (hlt : c < calls.length) :
    clamp_tool_batch_calls_to_remaining_capacity calls c =
      (calls.take c, calls.length - c) ∧
    (batch_requires_sequential (calls.take c) = false →
      execute_tool_batch_model calls tool_calls_in_current_step
          max_tool_calls_per_step =
        .completed (run_tool_batch_parallel (calls.take c)
          tool_calls_in_current_step calls.length (calls.length - c))) ∧
    (batch_requires_sequential (calls.take c) = true →
      execute_tool_batch_model calls tool_calls_in_current_step
          max_tool_calls_per_step =
        .sequentialDispatch (calls.take c) calls.length (calls.length - c)) ∧
    ((∀ call ∈ calls.take c, call.cancelled = false ∧
        ∃ mode, parse_output_mode_hint call.spec.output_mode = .ok mode) →
      ∃ result, run_tool_batch_parallel (calls.take c) tool_calls_in_current_step
          calls.length (calls.length - c) = .ok result ∧
        ∃ output, result.output = some output ∧
          output.get "requested_calls" = some (.num calls.length) ∧
          output.get "executed_calls" = some (.num c) ∧
          output.get "dropped_calls" =
            some (.num ((calls.length - c : Nat) : Int))) ∧
    (∀ (seq_calls : List SequentialBatchCall)
        (timeout_ms approval_timeout_ms : Nat),
      seq_calls.length = c →
      (∀ call ∈ seq_calls,
        (∃ mode, parse_output_mode_hint call.output_mode = .ok mode) ∧
        call.env.cancelled_after_approval = false ∧
        (execute_tool_handler_with_timeout timeout_ms call.env.handler_result
          call.env.timeout_polls).isSome = true ∧
        (call.env.requires_approval_resolved = true →
          ∃ decision forced, approval_wait_loop approval_timeout_ms
            call.env.approval_polls = some (.ok (decision, forced)))) →
      ∃ result, execute_tool_batch_sequential_model seq_calls timeout_ms
          approval_timeout_ms tool_calls_in_current_step max_tool_calls_per_step
          calls.length (calls.length - c) = .ok result ∧
        ∃ output, result.output = some output ∧
          output.get "requested_calls" = some (.num calls.length) ∧
          output.get "executed_calls" = some (.num c) ∧
          output.get "dropped_calls" =
            some (.num ((calls.length - c : Nat) : Int))) ∧
    (∀ n m : Nat, execute_tool_batch_model [] n m =
      .completed (.ok empty_batch_step_result)) ∧
    empty_batch_step_result.success = false := by
  have hclamp : clamp_tool_batch_calls_to_remaining_capacity calls c =
      (calls.take c, calls.length - c) := by
    unfold clamp_tool_batch_calls_to_remaining_capacity
    rw [if_neg (by omega)]
  have hne : calls.isEmpty = false := by
    cases calls with
    | nil => simp at hlt
    | cons a rest => rfl
  have htake : (calls.take c).length = c := by
    rw [List.length_take]
    omega
  have hpar : batch_requires_sequential (calls.take c) = false →
      execute_tool_batch_model calls tool_calls_in_current_step
          max_tool_calls_per_step =
        .completed (run_tool_batch_parallel (calls.take c)
          tool_calls_in_current_step calls.length (calls.length - c)) := by
    intro hseq
    unfold execute_tool_batch_model
    rw [hne]
    simp only [Bool.false_eq_true, if_false, hc]
    rw [if_neg (by omega), hclamp]
    simp only [hseq, Bool.false_eq_true, if_false]
  have hseqd : batch_requires_sequential (calls.take c) = true →
      execute_tool_batch_model calls tool_calls_in_current_step
          max_tool_calls_per_step =
        .sequentialDispatch (calls.take c) calls.length (calls.length - c) := by
    intro hseq
    unfold execute_tool_batch_model
    rw [hne]
    simp only [Bool.false_eq_true, if_false, hc]
    rw [if_neg (by omega), hclamp]
    simp only [hseq, if_true]
  have hrun : (∀ call ∈ calls.take c, call.cancelled = false ∧
      ∃ mode, parse_output_mode_hint call.spec.output_mode = .ok mode) →
      ∃ result, run_tool_batch_parallel (calls.take c) tool_calls_in_current_step
          calls.length (calls.length - c) = .ok result ∧
        ∃ output, result.output = some output ∧
          output.get "requested_calls" = some (.num calls.length) ∧
          output.get "executed_calls" = some (.num c) ∧
          output.get "dropped_calls" =
            some (.num ((calls.length - c : Nat) : Int)) := by
    intro hok
    obtain ⟨acc2, runnable, heq, hlen⟩ := submit_batch_calls_go_counts
      (calls.take c) (tool_calls_in_current_step + 1)
      { first_error := none, results_summary := [], tool_executions := [],
        successful_calls := 0 } hok
    unfold run_tool_batch_parallel
    rw [heq]
    refine ⟨_, rfl, _, rfl, ?_⟩
    have hagg : (aggregate_parallel_results acc2
        (runnable.map run_parallel_worker)).results_summary.length = c := by
      rw [aggregate_results_summary_length, List.length_map]
      rw [htake] at hlen
      simp at hlen
      omega
    have hgets := parallel_batch_output_get_counts calls.length (calls.length - c)
      (aggregate_parallel_results acc2 (runnable.map run_parallel_worker))
      (aggregate_parallel_results acc2
        (runnable.map run_parallel_worker)).first_error.isNone
    rw [hagg] at hgets
    exact ⟨hgets.1, hgets.2.1, hgets.2.2⟩
  have hseqrun : ∀ (seq_calls : List SequentialBatchCall)
      (timeout_ms approval_timeout_ms : Nat),
      seq_calls.length = c →
      (∀ call ∈ seq_calls,
        (∃ mode, parse_output_mode_hint call.output_mode = .ok mode) ∧
        call.env.cancelled_after_approval = false ∧
        (execute_tool_handler_with_timeout timeout_ms call.env.handler_result
          call.env.timeout_polls).isSome = true ∧
        (call.env.requires_approval_resolved = true →
          ∃ decision forced, approval_wait_loop approval_timeout_ms
            call.env.approval_polls = some (.ok (decision, forced)))) →
      ∃ result, execute_tool_batch_sequential_model seq_calls timeout_ms
          approval_timeout_ms tool_calls_in_current_step max_tool_calls_per_step
          calls.length (calls.length - c) = .ok result ∧
        ∃ output, result.output = some output ∧
          output.get "requested_calls" = some (.num calls.length) ∧
          output.get "executed_calls" = some (.num c) ∧
          output.get "dropped_calls" =
            some (.num ((calls.length - c : Nat) : Int)) := by
    intro seq_calls timeout_ms approval_timeout_ms hlen_eq hok_seq
    have hcap : tool_calls_in_current_step + seq_calls.length ≤
        max_tool_calls_per_step := by
      rw [hlen_eq]
      omega
    obtain ⟨agg, counter2, hgo, hagg_len⟩ := execute_tool_batch_sequential_go_counts
      timeout_ms approval_timeout_ms max_tool_calls_per_step seq_calls
      tool_calls_in_current_step
      { first_error := none, results_summary := [], tool_executions := [],
        successful_calls := 0 } hcap hok_seq
    unfold execute_tool_batch_sequential_model
    rw [hgo]
    refine ⟨_, rfl, _, rfl, ?_⟩
    have hslen : agg.results_summary.length = c := by
      rw [hagg_len, hlen_eq]
      simp
    have hgets := sequential_batch_output_get_counts calls.length
      (calls.length - c) agg agg.first_error.isNone
    rw [hslen] at hgets
    exact ⟨hgets.1, hgets.2.1, hgets.2.2⟩
  exact ⟨hclamp, hpar, hseqd, hrun, hseqrun, fun n m => rfl, rfl⟩

/-- Counterexample to C4 as stated: with remaining capacity 0 and one
requested call (0 < 1, so capacity < requested), the batch is rejected
outright with a failed step result that reports only the request and the
remaining capacity — there are no `executed_calls`/`dropped_calls` fields. -/
theorem capacity_exhausted_reports_no_counts :
    execute_tool_batch_model
        [⟨⟨"echo", Json.null, none⟩, false, some ⟨false, .auto⟩, none, "e1",
          .ok Json.null, .ok ⟨"r", "s"⟩, false⟩] 2 2 =
      .completed (.ok (capacity_exhausted_step_result 1 0)) ∧
    (capacity_exhausted_step_result 1 0).success = false ∧
    ((capacity_exhausted_step_result 1 0).output.map fun output =>
      (output.get "requested_calls", output.get "executed_calls",
        output.get "dropped_calls")) =
      some (some (.num 1), none, none) := by
  refine ⟨rfl, rfl, rfl⟩

/-- Witness for C4: a concrete two-call batch against remaining capacity 1 is
clamped to its first call with one drop. -/
theorem tool_batch_clamps_and_reports_witness :
    ((1 : Nat) - 0 = 1) ∧ (0 : Nat) < 1 ∧ (1 : Nat) < 2 ∧
    clamp_tool_batch_calls_to_remaining_capacity
        [(⟨⟨"echo", Json.null, none⟩, false, some ⟨false, .auto⟩, none, "e1",
            .ok Json.null, .ok ⟨"r", "s"⟩, false⟩ : BatchCallInput),
         ⟨⟨"echo", Json.null, none⟩, false, some ⟨false, .auto⟩, none, "e2",
            .ok Json.null, .ok ⟨"r", "s"⟩, false⟩] 1 =
      ([⟨⟨"echo", Json.null, none⟩, false, some ⟨false, .auto⟩, none, "e1",
          .ok Json.null, .ok ⟨"r", "s"⟩, false⟩], 1) := by
  refine ⟨rfl, Nat.zero_lt_one, Nat.one_lt_two, ?_⟩
  exact (tool_batch_clamps_and_reports
    [⟨⟨"echo", Json.null, none⟩, false, some ⟨false, .auto⟩, none, "e1",
        .ok Json.null, .ok ⟨"r", "s"⟩, false⟩,
     ⟨⟨"echo", Json.null, none⟩, false, some ⟨false, .auto⟩, none, "e2",
        .ok Json.null, .ok ⟨"r", "s"⟩, false⟩]
    0 1 1 rfl Nat.zero_lt_one Nat.one_lt_two).1
